import Mathlib

/-! ESP-Mail-Client: message model, collections and protocol contracts

A shallow embedding of the parts of `src/ESP_Mail_Client.h` that build and
edit an outbound `SMTP_Message` (attachment, recipient, header and nested
message lists), of the IMAP flag wrappers `setFlag` / `addFlag` /
`removeFlag`, of the collections `SelectedFolderInfo`, `FoldersCollection`
and `SendingResult`, and of the codes of `src/ESP_Mail_Error.h`. Functions
that the header only declares (`multipartMember`, the base64 functions,
`mSelectFolder`, `sendMail`) are modelled from the specification; each such
definition says so.

Conventions of the embedding:

* `MB_String` is `String`; `MB_VECTOR<T>` is `List T`; `push_back` appends at
  the end, `erase(begin() + i)` is `List.eraseIdx`, `clear()` gives `[]`.
* A member function that changes its object returns the new object; one that
  also writes through a reference parameter returns both.
* `int` is the 32 bit signed integer of the ESP targets; the conversion
  `(int)` of a `size_t` is `castInt`.
* Declarations of `ESP_Mail_Const.h` and `mb_string` are not part of the
  sources at hand; the record types below have the members that the code in
  `ESP_Mail_Client.h` reads or writes.
* A `const char *` is the text it points to; `c_str()` followed by the
  construction of a string gives the same text.
* What the environment supplies (the reading of `millis()`, the answer of a
  server, the number drawn by `random`) is an argument of the model.
-/

namespace ESPMail

/-! ## Strings and integers -/

/-- The string class of the library. -/
abbrev MB_String := String

/-- The string reference handed from the templated API functions to the
internal `m...` functions. -/
abbrev MB_StringPtr := String

/-- Modelled from the spec: the helper `toStringPtr` of `mb_string` (absent
from the sources at hand) is the conversion of a string-like argument at the
API boundary; it hands the callee the text of its argument. -/
def toStringPtr (s : String) : MB_StringPtr := s

/-- The null pointer, for the `const uint8_t *` of an in-memory blob. A
pointer is its address. -/
def nullptr : Nat := 0

/-- The conversion `(int)` of an unsigned size: the value modulo `2^32`, read
as a two's complement 32 bit number. -/
def castInt (n : Nat) : Int :=
  if n % 2 ^ 32 < 2 ^ 31 then ((n % 2 ^ 32 : Nat) : Int)
  else ((n % 2 ^ 32 : Nat) : Int) - 2 ^ 32

/-! ## Enumerations -/

/-- The kind of an attachment item (`esp_mail_attach_type`). -/
inductive esp_mail_attach_type where
  | esp_mail_att_type_none
  | esp_mail_att_type_attachment
  | esp_mail_att_type_inline
  deriving DecidableEq, Repr

/-- Modelled from the spec: the storage tier identifier of a file source
("internal flash vs. removable card"); the code at hand names only
`esp_mail_file_storage_type_none`. -/
inductive esp_mail_file_storage_type where
  | esp_mail_file_storage_type_none
  | esp_mail_file_storage_type_flash
  | esp_mail_file_storage_type_sd
  deriving DecidableEq, Repr

/-- Modelled from the spec: the transfer encoding tag of an item (7-bit,
quoted-printable, base64); the code at hand names only
`esp_mail_msg_xencoding_none`. -/
inductive esp_mail_msg_xencoding where
  | esp_mail_msg_xencoding_none
  | esp_mail_msg_xencoding_7bit
  | esp_mail_msg_xencoding_qp
  | esp_mail_msg_xencoding_base64
  deriving DecidableEq, Repr

/-- The delivery status notification option; the code at hand names only
`esp_mail_smtp_notify_never`, every other value is `other`. -/
inductive esp_mail_smtp_notify where
  | esp_mail_smtp_notify_never
  | other (code : Nat)
  deriving DecidableEq, Repr

/-- The message priority; the code at hand names only
`esp_mail_smtp_priority_normal`, every other value is `other`. -/
inductive esp_mail_smtp_priority where
  | esp_mail_smtp_priority_normal
  | other (code : Nat)
  deriving DecidableEq, Repr

/-- The initial value of the member `type` of a message, a `byte`. -/
def esp_mail_msg_type_none : Nat := 0

/-! ## Attachment items -/

/-- The in-memory source of an attachment: `att.blob`. -/
structure esp_mail_attach_blob_t where
  data : Nat := nullptr
  size : Nat := 0
  deriving DecidableEq, Repr

/-- The external-storage source of an attachment: `att.file`. -/
structure esp_mail_attach_file_t where
  path : MB_String := ""
  storage_type : esp_mail_file_storage_type :=
    esp_mail_file_storage_type.esp_mail_file_storage_type_none
  deriving DecidableEq, Repr

/-- The descriptor of an attachment: `att.descr`. -/
structure esp_mail_attach_descr_t where
  name : MB_String := ""
  filename : MB_String := ""
  transfer_encoding : MB_String := ""
  content_encoding : MB_String := ""
  mime : MB_String := ""
  content_id : MB_String := ""
  deriving DecidableEq, Repr

/-- The members of an attachment that the library keeps for itself:
`att._int`. -/
structure esp_mail_attach_internal_t where
  att_type : esp_mail_attach_type := esp_mail_attach_type.esp_mail_att_type_none
  index : Nat := 0
  msg_uid : Nat := 0
  flash_blob : Bool := false
  xencoding : esp_mail_msg_xencoding :=
    esp_mail_msg_xencoding.esp_mail_msg_xencoding_none
  parallel : Bool := false
  cid : MB_String := ""
  deriving DecidableEq, Repr

/-- An attachment or inline image item. -/
structure SMTP_Attachment where
  blob : esp_mail_attach_blob_t := {}
  file : esp_mail_attach_file_t := {}
  descr : esp_mail_attach_descr_t := {}
  _int : esp_mail_attach_internal_t := {}
  deriving DecidableEq, Repr

/-! ## Messages -/

/-- A mailbox with a display name: `sender`, `from`. -/
structure esp_mail_email_info_t where
  name : MB_String := ""
  email : MB_String := ""
  deriving DecidableEq, Repr

/-- The embedding option of a body part: `text.embed`, `html.embed`. -/
structure esp_mail_embed_message_body_t where
  enable : Bool := false
  deriving DecidableEq, Repr

/-- The plain text part of a message: `text`. -/
structure esp_mail_plain_body_t where
  charSet : MB_String := ""
  content : MB_String := ""
  content_type : MB_String := ""
  embed : esp_mail_embed_message_body_t := {}
  deriving DecidableEq, Repr

/-- The HTML part of a message: `html`. -/
structure esp_mail_html_body_t where
  charSet : MB_String := ""
  content : MB_String := ""
  content_type : MB_String := ""
  embed : esp_mail_embed_message_body_t := {}
  deriving DecidableEq, Repr

/-- The response options of a message: `response`. -/
structure esp_mail_smtp_msg_response_t where
  reply_to : MB_String := ""
  notify : esp_mail_smtp_notify := esp_mail_smtp_notify.esp_mail_smtp_notify_never
  deriving DecidableEq, Repr

/-- Modelled from the spec: the enable options of a message; the spec names
the chunking extension (`BDAT`), the members are not in the code at hand. -/
structure esp_mail_smtp_enable_option_t where
  chunking : Bool := false
  deriving DecidableEq, Repr

/-- A primary recipient: an entry of `_rcp`. -/
structure esp_mail_smtp_recipient_t where
  name : MB_String := ""
  email : MB_String := ""
  deriving DecidableEq, Repr

/-- A carbon-copy or blind-carbon-copy recipient: an entry of `_cc`, `_bcc`. -/
structure esp_mail_smtp_recipient_address_t where
  email : MB_String := ""
  deriving DecidableEq, Repr

/-- The outbound message class. The public members come first, in the order
of the class, then the private lists. -/
structure SMTP_Message where
  sender : esp_mail_email_info_t := {}
  subject : MB_String := ""
  type : Nat := esp_mail_msg_type_none
  text : esp_mail_plain_body_t := {}
  html : esp_mail_html_body_t := {}
  response : esp_mail_smtp_msg_response_t := {}
  priority : esp_mail_smtp_priority :=
    esp_mail_smtp_priority.esp_mail_smtp_priority_normal
  enable : esp_mail_smtp_enable_option_t := {}
  «from» : esp_mail_email_info_t := {}
  messageID : MB_String := ""
  keywords : MB_String := ""
  comments : MB_String := ""
  date : MB_String := ""
  in_reply_to : MB_String := ""
  references : MB_String := ""
  _rcp : List esp_mail_smtp_recipient_t := []
  _cc : List esp_mail_smtp_recipient_address_t := []
  _bcc : List esp_mail_smtp_recipient_address_t := []
  _hdr : List MB_String := []
  _att : List SMTP_Attachment := []
  _parallel : List SMTP_Attachment := []
  _rfc822 : List SMTP_Message

/-- The constructor `SMTP_Message(){}`: every member has its initial value,
every list is empty. -/
def SMTP_Message.new : SMTP_Message := { _rfc822 := [] }

/-! ## Operations of `SMTP_Message` -/

/-- The loop shared by `clearInlineimages` and `clearAttachments`:
`for (int i = n - 1; i >= 0; i--) if (v[i]._int.att_type == t) v.erase(v.begin() + i);`
with `k = i + 1` iterations still to run. An index past the end does not
occur when the loop starts at the size of the list; the model skips it. -/
def eraseTypeLoop (t : esp_mail_attach_type) : Nat → List SMTP_Attachment → List SMTP_Attachment
  | 0, v => v
  | i + 1, v =>
    match v[i]? with
    | some a =>
      if a._int.att_type = t then eraseTypeLoop t i (v.eraseIdx i)
      else eraseTypeLoop t i v
    | none => eraseTypeLoop t i v

/-- The loop of `clearAttachments` over `_parallel` and of
`clearRFC822Messages`: `for (int i = n - 1; i >= 0; i--) v.erase(v.begin() + i);`
with `k = i + 1` iterations still to run. -/
def eraseAllLoop {α : Type} : Nat → List α → List α
  | 0, v => v
  | i + 1, v => eraseAllLoop i (v.eraseIdx i)

namespace SMTP_Message

/-- The member `resetAttachItem`: writes every member of `att`. -/
def resetAttachItem (_m : SMTP_Message) (att : SMTP_Attachment) : SMTP_Attachment :=
  let att := { att with blob := { att.blob with size := 0 } }
  let att := { att with blob := { att.blob with data := nullptr } }
  let att := { att with file := { att.file with path := "" } }
  let att := { att with file := { att.file with
    storage_type := esp_mail_file_storage_type.esp_mail_file_storage_type_none } }
  let att := { att with descr := { att.descr with name := "" } }
  let att := { att with descr := { att.descr with filename := "" } }
  let att := { att with descr := { att.descr with transfer_encoding := "" } }
  let att := { att with descr := { att.descr with content_encoding := "" } }
  let att := { att with descr := { att.descr with mime := "" } }
  let att := { att with descr := { att.descr with content_id := "" } }
  let att := { att with _int := { att._int with
    att_type := esp_mail_attach_type.esp_mail_att_type_none } }
  let att := { att with _int := { att._int with index := 0 } }
  let att := { att with _int := { att._int with msg_uid := 0 } }
  let att := { att with _int := { att._int with flash_blob := false } }
  let att := { att with _int := { att._int with
    xencoding := esp_mail_msg_xencoding.esp_mail_msg_xencoding_none } }
  let att := { att with _int := { att._int with parallel := false } }
  let att := { att with _int := { att._int with cid := "" } }
  att

/-- The member `clearInlineimages`. The loop starts at `(int)_att.size() - 1`
and runs while the index is not negative. -/
def clearInlineimages (m : SMTP_Message) : SMTP_Message :=
  let n := (castInt m._att.length).toNat
  { m with _att := eraseTypeLoop esp_mail_attach_type.esp_mail_att_type_inline n m._att }

/-- The member `clearAttachments`: one loop over `_att`, one over `_parallel`. -/
def clearAttachments (m : SMTP_Message) : SMTP_Message :=
  let n := (castInt m._att.length).toNat
  let m := { m with _att := eraseTypeLoop esp_mail_attach_type.esp_mail_att_type_attachment n m._att }
  let k := (castInt m._parallel.length).toNat
  { m with _parallel := eraseAllLoop k m._parallel }

/-- The member `clearRecipients`. -/
def clearRecipients (m : SMTP_Message) : SMTP_Message := { m with _rcp := [] }

/-- The member `clearCc`. -/
def clearCc (m : SMTP_Message) : SMTP_Message := { m with _cc := [] }

/-- The member `clearBcc`. -/
def clearBcc (m : SMTP_Message) : SMTP_Message := { m with _bcc := [] }

/-- The member `clearHeader`. -/
def clearHeader (m : SMTP_Message) : SMTP_Message := { m with _hdr := [] }

/-- The member `addAttachment`. The item is passed by reference: the three
assignments change the caller's item, then a copy is pushed. The result is
the message and the caller's item. -/
def addAttachment (m : SMTP_Message) (att : SMTP_Attachment) : SMTP_Message × SMTP_Attachment :=
  let att := { att with _int := { att._int with
    att_type := esp_mail_attach_type.esp_mail_att_type_attachment } }
  let att := { att with _int := { att._int with parallel := false } }
  let att := { att with _int := { att._int with flash_blob := true } }
  ({ m with _att := m._att ++ [att] }, att)

/-- The member `addParallelAttachment`. -/
def addParallelAttachment (m : SMTP_Message) (att : SMTP_Attachment) :
    SMTP_Message × SMTP_Attachment :=
  let att := { att with _int := { att._int with
    att_type := esp_mail_attach_type.esp_mail_att_type_attachment } }
  let att := { att with _int := { att._int with parallel := true } }
  let att := { att with _int := { att._int with flash_blob := true } }
  ({ m with _parallel := m._parallel ++ [att] }, att)

/-- The member `addInlineImage`. The content id is the text of the number
drawn by `random(2000, 4000)`; the draw `rnd` is an input of the model. -/
def addInlineImage (m : SMTP_Message) (att : SMTP_Attachment) (rnd : Nat) :
    SMTP_Message × SMTP_Attachment :=
  let att := { att with _int := { att._int with flash_blob := true } }
  let att := { att with _int := { att._int with parallel := false } }
  let att := { att with _int := { att._int with
    att_type := esp_mail_attach_type.esp_mail_att_type_inline } }
  let att := { att with _int := { att._int with cid := toString rnd } }
  ({ m with _att := m._att ++ [att] }, att)

/-- The member `addMessage`: pushes a copy of `msg`. -/
def addMessage (m : SMTP_Message) (msg : SMTP_Message) : SMTP_Message :=
  { m with _rfc822 := m._rfc822 ++ [msg] }

/-- The member `addRecipient`. -/
def addRecipient (m : SMTP_Message) (name email : String) : SMTP_Message :=
  let rcp : esp_mail_smtp_recipient_t := {}
  let rcp := { rcp with name := toStringPtr name }
  let rcp := { rcp with email := toStringPtr email }
  { m with _rcp := m._rcp ++ [rcp] }

/-- The member `addCc`. -/
def addCc (m : SMTP_Message) (email : String) : SMTP_Message :=
  let cc : esp_mail_smtp_recipient_address_t := {}
  let cc := { cc with email := toStringPtr email }
  { m with _cc := m._cc ++ [cc] }

/-- The member `addBcc`. -/
def addBcc (m : SMTP_Message) (email : String) : SMTP_Message :=
  let bcc : esp_mail_smtp_recipient_address_t := {}
  let bcc := { bcc with email := toStringPtr email }
  { m with _bcc := m._bcc ++ [bcc] }

/-- The member `addHeader`. -/
def addHeader (m : SMTP_Message) (hdr : String) : SMTP_Message :=
  { m with _hdr := m._hdr ++ [toStringPtr hdr] }

end SMTP_Message

/-! ## The flag wrappers of `ESP_Mail_Client` -/

section Flags

variable {IMAPSession : Type}

/-- The wrapper `setFlag`. The internal store operation `mSetFlag` is only
declared in the header; it is an argument of the model. It may change the
session, so it returns the session next to its result. -/
def setFlag (mSetFlag : IMAPSession → Int → MB_StringPtr → Nat → Bool → Bool × IMAPSession)
    (imap : IMAPSession) (msgUID : Int) (flags : String) (closeSession : Bool) :
    Bool × IMAPSession :=
  mSetFlag imap msgUID (toStringPtr flags) 0 closeSession

/-- The wrapper `addFlag`. -/
def addFlag (mSetFlag : IMAPSession → Int → MB_StringPtr → Nat → Bool → Bool × IMAPSession)
    (imap : IMAPSession) (msgUID : Int) (flags : String) (closeSession : Bool) :
    Bool × IMAPSession :=
  mSetFlag imap msgUID (toStringPtr flags) 1 closeSession

/-- The wrapper `removeFlag`. -/
def removeFlag (mSetFlag : IMAPSession → Int → MB_StringPtr → Nat → Bool → Bool × IMAPSession)
    (imap : IMAPSession) (msgUID : Int) (flags : String) (closeSession : Bool) :
    Bool × IMAPSession :=
  mSetFlag imap msgUID (toStringPtr flags) 2 closeSession

end Flags

/-- One call of the internal store operation, as a test double sees it. -/
structure StoreCall where
  msgUID : Int
  flags : MB_StringPtr
  action : Nat
  closeSession : Bool
  deriving DecidableEq, Repr

/-- A test double for `mSetFlag`: the session is the log of the calls made so
far; each call is appended to the log and answers `ok`. -/
def recordStore (ok : Bool) (log : List StoreCall) (msgUID : Int) (flags : MB_StringPtr)
    (action : Nat) (closeSession : Bool) : Bool × List StoreCall :=
  (ok, log ++ [{ msgUID := msgUID, flags := flags, action := action,
                 closeSession := closeSession }])

/-! ## Vocabulary of the statements -/

/-- The two messages agree on every public member of the class. -/
def samePublicMembers (m r : SMTP_Message) : Prop :=
  r.sender = m.sender ∧ r.subject = m.subject ∧ r.type = m.type ∧ r.text = m.text ∧
  r.html = m.html ∧ r.response = m.response ∧ r.priority = m.priority ∧
  r.enable = m.enable ∧ r.«from» = m.«from» ∧ r.messageID = m.messageID ∧
  r.keywords = m.keywords ∧ r.comments = m.comments ∧ r.date = m.date ∧
  r.in_reply_to = m.in_reply_to ∧ r.references = m.references

/-- The two messages agree on the four address and header lists. -/
def sameAddressLists (m r : SMTP_Message) : Prop :=
  r._rcp = m._rcp ∧ r._cc = m._cc ∧ r._bcc = m._bcc ∧ r._hdr = m._hdr

/-- The two messages agree on both attachment lists. -/
def sameAttachmentLists (m r : SMTP_Message) : Prop :=
  r._att = m._att ∧ r._parallel = m._parallel

/-- The item is of type attachment. -/
def isAttachment (a : SMTP_Attachment) : Bool :=
  decide (a._int.att_type = esp_mail_attach_type.esp_mail_att_type_attachment)

/-- The item is of type inline. -/
def isInline (a : SMTP_Attachment) : Bool :=
  decide (a._int.att_type = esp_mail_attach_type.esp_mail_att_type_inline)

/-- The blob data of the item is set: the pointer is not null. -/
def blobSet (a : SMTP_Attachment) : Bool := decide (a.blob.data ≠ nullptr)

/-- The file path of the item is set: the path is not empty. -/
def fileSet (a : SMTP_Attachment) : Bool := decide (a.file.path ≠ "")

/-- Exactly one of the two sources of the item is set. -/
def exactlyOneSource (a : SMTP_Attachment) : Bool := xor (blobSet a) (fileSet a)

/-- One call of one of the three functions that add an item to a message. -/
inductive AddCall where
  | attachment (att : SMTP_Attachment)
  | parallelAttachment (att : SMTP_Attachment)
  | inlineImage (att : SMTP_Attachment) (rnd : Nat)

/-- The message after one call. -/
def AddCall.apply (m : SMTP_Message) : AddCall → SMTP_Message
  | .attachment att => (m.addAttachment att).1
  | .parallelAttachment att => (m.addParallelAttachment att).1
  | .inlineImage att rnd => (m.addInlineImage att rnd).1

/-- The message after the calls of the list, made from left to right. -/
def runCalls (m : SMTP_Message) : List AddCall → SMTP_Message
  | [] => m
  | c :: cs => runCalls (c.apply m) cs

/-- The items given to `addParallelAttachment` by the calls, in call order. -/
def parallelArgs : List AddCall → List SMTP_Attachment
  | [] => []
  | .parallelAttachment att :: cs => att :: parallelArgs cs
  | _ :: cs => parallelArgs cs

/-- The images given to `addInlineImage` by the calls, in call order. -/
def inlineArgs : List AddCall → List SMTP_Attachment
  | [] => []
  | .inlineImage att _ :: cs => att :: inlineArgs cs
  | _ :: cs => inlineArgs cs

/-- What the caller supplies for an item: its blob, file and descriptor. -/
def payload (a : SMTP_Attachment) :
    esp_mail_attach_blob_t × esp_mail_attach_file_t × esp_mail_attach_descr_t :=
  (a.blob, a.file, a.descr)

/-- An item whose source is a file on the flash storage. -/
def sampleFileItem : SMTP_Attachment :=
  { file := { path := "/logo.png",
              storage_type := esp_mail_file_storage_type.esp_mail_file_storage_type_flash },
    descr := { filename := "logo.png", mime := "image/png" } }

/-- An item whose source is a buffer of 16 bytes in memory. -/
def sampleBlobItem : SMTP_Attachment :=
  { blob := { data := 1073414144, size := 16 },
    descr := { filename := "data.bin", mime := "application/octet-stream" } }

/-- An item with both sources set. -/
def sampleBothItem : SMTP_Attachment :=
  { blob := { data := 1073414144, size := 16 },
    file := { path := "/logo.png",
              storage_type := esp_mail_file_storage_type.esp_mail_file_storage_type_flash } }

/-- A message built by five calls: an inline image, an attachment, a second
inline image, a parallel attachment and a second attachment. -/
def sampleMessage : SMTP_Message :=
  runCalls SMTP_Message.new
    [.inlineImage sampleFileItem 2500, .attachment sampleBlobItem,
     .inlineImage sampleBlobItem 3100, .parallelAttachment sampleFileItem,
     .attachment sampleFileItem]

/-! ## Clearing a message and its nested messages -/

/-- The writes of `clear()` to one entry of `_att` or `_parallel`. -/
def clearAttachEntry (a : SMTP_Attachment) : SMTP_Attachment :=
  let a := { a with descr := { a.descr with filename := "" } }
  let a := { a with blob := { a.blob with data := nullptr } }
  let a := { a with descr := { a.descr with mime := "" } }
  let a := { a with descr := { a.descr with name := "" } }
  let a := { a with blob := { a.blob with size := 0 } }
  let a := { a with descr := { a.descr with transfer_encoding := "" } }
  let a := { a with file := { a.file with path := "" } }
  { a with file := { a.file with
      storage_type := esp_mail_file_storage_type.esp_mail_file_storage_type_none } }

/-- The member `clear` of `SMTP_Message`: the assignments to the public
members, the loops that clear the entries of the six lists, then the six
`clear()` calls. The assignments of each group are written as one update. -/
def SMTP_Message.clear (m : SMTP_Message) : SMTP_Message :=
  let m1 : SMTP_Message :=
    { m with
      sender := { m.sender with name := "", email := "" },
      subject := "",
      text := { m.text with charSet := "", content := "", content_type := "",
                            embed := { m.text.embed with enable := false } },
      html := { m.html with charSet := "", content := "", content_type := "",
                            embed := { m.html.embed with enable := false } },
      response := { m.response with reply_to := "",
                                    notify := esp_mail_smtp_notify.esp_mail_smtp_notify_never },
      priority := esp_mail_smtp_priority.esp_mail_smtp_priority_normal }
  let m2 : SMTP_Message :=
    { m1 with
      _rcp := m1._rcp.map (fun r => { r with name := "", email := "" }),
      _cc := m1._cc.map (fun r => { r with email := "" }),
      _bcc := m1._bcc.map (fun r => { r with email := "" }),
      _hdr := m1._hdr.map (fun _ => ""),
      _att := m1._att.map clearAttachEntry,
      _parallel := m1._parallel.map clearAttachEntry }
  { m2 with _rcp := [], _cc := [], _bcc := [], _hdr := [], _att := [], _parallel := [] }

/-- The loop of `clearRFC822Messages`:
`for (int i = n - 1; i >= 0; i--) { v[i].clear(); v.erase(v.begin() + i); }`
with `k = i + 1` iterations still to run. An index past the end does not
occur when the loop starts at the size of the list; the model skips it. -/
def clearRFC822Loop : Nat → List SMTP_Message → List SMTP_Message
  | 0, v => v
  | i + 1, v =>
    match v[i]? with
    | some x => clearRFC822Loop i ((v.set i x.clear).eraseIdx i)
    | none => clearRFC822Loop i v

/-- The member `clearRFC822Messages`. The loop starts at
`(int)_rfc822.size() - 1` and runs while the index is not negative. -/
def SMTP_Message.clearRFC822Messages (m : SMTP_Message) : SMTP_Message :=
  let n := (castInt m._rfc822.length).toNat
  { m with _rfc822 := clearRFC822Loop n m._rfc822 }

/-- A message with two nested messages, the first with attachments. -/
def sampleNested : SMTP_Message :=
  ((SMTP_Message.new.addRecipient "Ann" "ann@example.com").addMessage sampleMessage).addMessage
    (SMTP_Message.new.addHeader "X-Note: inner")

/-! ## The selected folder, the folder list and the sending results -/

/-- The kind of a polling status; the comment of `pollingStatus` names the
four values. -/
inductive imap_polling_status_type where
  | imap_polling_status_type_undefined
  | imap_polling_status_type_new_message
  | imap_polling_status_type_remove_message
  | imap_polling_status_type_fetch_message
  deriving DecidableEq, Repr

/-- The polling status; the comment of `pollingStatus` names its properties
type, messageNum and argument. -/
structure IMAP_Polling_Status where
  type : imap_polling_status_type :=
    imap_polling_status_type.imap_polling_status_type_undefined
  messageNum : Nat := 0
  argument : String := ""
  deriving DecidableEq, Repr

/-- The class `SelectedFolderInfo`, with the initial values of its members. -/
structure SelectedFolderInfo where
  _msgCount : Nat := 0
  _recentCount : Nat := 0
  _nextUID : Nat := 0
  _unseenMsgIndex : Nat := 0
  _searchCount : Nat := 0
  _availableItems : Nat := 0
  _idleTimeMs : Nat := 0
  _folderChanged : Bool := false
  _floderChangedState : Bool := false
  _polling_status : IMAP_Polling_Status := {}
  _flags : List MB_String := []
  deriving DecidableEq, Repr

/-- The member `flagCount`. -/
def SelectedFolderInfo.flagCount (s : SelectedFolderInfo) : Nat := s._flags.length

/-- The member `flag`: the text of the entry at `index`, the empty text when
the index is not below the size. -/
def SelectedFolderInfo.flag (s : SelectedFolderInfo) (index : Nat) : String :=
  if h : index < s._flags.length then s._flags[index] else ""

/-- The private member `addFlag`: a string is made of the text and pushed. -/
def SelectedFolderInfo.addFlag (s : SelectedFolderInfo) (flag : String) : SelectedFolderInfo :=
  let t : MB_String := flag
  { s with _flags := s._flags ++ [t] }

/-- The private member `clear`: every entry is cleared, then the list. -/
def SelectedFolderInfo.clear (s : SelectedFolderInfo) : SelectedFolderInfo :=
  let s := { s with _flags := s._flags.map (fun _ => "") }
  { s with _flags := [] }

/-- A folder as the session keeps it: an entry of `_folders`. -/
structure esp_mail_folder_info_t where
  name : MB_String := ""
  attributes : MB_String := ""
  delimiter : MB_String := ""
  deriving DecidableEq, Repr

/-- Modelled from the spec: a folder as `info` hands it out, with the name,
attributes and delimiter of the folder state. The declaration with the
initial values of the members is not in the code at hand; an item that was
only constructed has empty texts. -/
structure esp_mail_folder_info_item_t where
  name : String := ""
  attributes : String := ""
  delimiter : String := ""
  deriving DecidableEq, Repr

/-- The class `FoldersCollection`. -/
structure FoldersCollection where
  _folders : List esp_mail_folder_info_t := []
  deriving DecidableEq, Repr

/-- The member `size`. -/
def FoldersCollection.size (c : FoldersCollection) : Nat := c._folders.length

/-- The member `info`: an item is constructed; when the index is below the
size its three members are assigned from the entry. -/
def FoldersCollection.info (c : FoldersCollection) (index : Nat) : esp_mail_folder_info_item_t :=
  let fd : esp_mail_folder_info_item_t := {}
  if h : index < c._folders.length then
    let fd := { fd with name := c._folders[index].name }
    let fd := { fd with attributes := c._folders[index].attributes }
    let fd := { fd with delimiter := c._folders[index].delimiter }
    fd
  else fd

/-- The private member `add`. -/
def FoldersCollection.add (c : FoldersCollection) (fd : esp_mail_folder_info_t) :
    FoldersCollection :=
  { c with _folders := c._folders ++ [fd] }

/-- The private member `clear`: the texts of every entry that are not empty
are cleared, then the list. -/
def FoldersCollection.clear (c : FoldersCollection) : FoldersCollection :=
  let c := { c with _folders := c._folders.map (fun (f : esp_mail_folder_info_t) =>
    let f := if f.name.length > 0 then { f with name := "" } else f
    let f := if f.attributes.length > 0 then { f with attributes := "" } else f
    if f.delimiter.length > 0 then { f with delimiter := "" } else f) }
  { c with _folders := [] }

/-- Modelled from the spec: the result record of one send attempt, with the
success flag, the timestamp, the recipients and the subject; `clear` of
`SendingResult` writes these four members. The declaration with the initial
values is not in the code at hand. -/
structure SMTP_Result where
  completed : Bool := false
  timestamp : Nat := 0
  recipients : MB_String := ""
  subject : MB_String := ""
  deriving DecidableEq, Repr

/-- The class `SendingResult`. -/
structure SendingResult where
  _result : List SMTP_Result := []
  deriving DecidableEq, Repr

/-- The private member `add`: a copy of the record pointed to is pushed. -/
def SendingResult.add (s : SendingResult) (r : SMTP_Result) : SendingResult :=
  { s with _result := s._result ++ [r] }

/-- The member `clear`: the four members of every entry are reset, then the
list is cleared. -/
def SendingResult.clear (s : SendingResult) : SendingResult :=
  let s := { s with _result := s._result.map (fun (r : SMTP_Result) =>
    { r with recipients := "", subject := "", timestamp := 0, completed := false }) }
  { s with _result := [] }

/-- The member `getItem`: the entry at `index`, a record that was only
constructed when the index is not below the size. -/
def SendingResult.getItem (s : SendingResult) (index : Nat) : SMTP_Result :=
  let r : SMTP_Result := {}
  if h : index < s._result.length then s._result[index] else r

/-- The member `size`. -/
def SendingResult.size (s : SendingResult) : Nat := s._result.length

/-- The snapshot after the flags of the list were recorded, one `addFlag` per
flag from left to right, since the last `clear`. -/
def recordFlags (s : SelectedFolderInfo) (fs : List String) : SelectedFolderInfo :=
  fs.foldl SelectedFolderInfo.addFlag s.clear

/-- The collection built by adding the folders of the list, from left to
right, to a new collection. -/
def buildFolders (ds : List esp_mail_folder_info_t) : FoldersCollection :=
  ds.foldl FoldersCollection.add {}

/-! ## The error codes of `ESP_Mail_Error.h` -/

/-- The code `TCP_CLIENT_ERROR_CONNECTION_REFUSED`. -/
def TCP_CLIENT_ERROR_CONNECTION_REFUSED : Int := -1

/-- The code `TCP_CLIENT_ERROR_SEND_DATA_FAILED`. -/
def TCP_CLIENT_ERROR_SEND_DATA_FAILED : Int := -2

/-- The code `TCP_CLIENT_ERROR_NOT_INITIALIZED`. -/
def TCP_CLIENT_ERROR_NOT_INITIALIZED : Int := -3

/-- The code `TCP_CLIENT_ERROR_NOT_CONNECTED`. -/
def TCP_CLIENT_ERROR_NOT_CONNECTED : Int := -4

/-- The code `SMTP_STATUS_SERVER_CONNECT_FAILED`. -/
def SMTP_STATUS_SERVER_CONNECT_FAILED : Int := -100

/-- The code `SMTP_STATUS_SMTP_GREETING_GET_RESPONSE_FAILED`. -/
def SMTP_STATUS_SMTP_GREETING_GET_RESPONSE_FAILED : Int := -101

/-- The code `SMTP_STATUS_SMTP_GREETING_SEND_ACK_FAILED`. -/
def SMTP_STATUS_SMTP_GREETING_SEND_ACK_FAILED : Int := -102

/-- The code `SMTP_STATUS_AUTHEN_NOT_SUPPORT`. -/
def SMTP_STATUS_AUTHEN_NOT_SUPPORT : Int := -103

/-- The code `SMTP_STATUS_AUTHEN_FAILED`. -/
def SMTP_STATUS_AUTHEN_FAILED : Int := -104

/-- The code `SMTP_STATUS_USER_LOGIN_FAILED`. -/
def SMTP_STATUS_USER_LOGIN_FAILED : Int := -105

/-- The code `SMTP_STATUS_PASSWORD_LOGIN_FAILED`. -/
def SMTP_STATUS_PASSWORD_LOGIN_FAILED : Int := -106

/-- The code `SMTP_STATUS_SEND_HEADER_SENDER_FAILED`. -/
def SMTP_STATUS_SEND_HEADER_SENDER_FAILED : Int := -107

/-- The code `SMTP_STATUS_SEND_HEADER_RECIPIENT_FAILED`. -/
def SMTP_STATUS_SEND_HEADER_RECIPIENT_FAILED : Int := -108

/-- The code `SMTP_STATUS_SEND_BODY_FAILED`. -/
def SMTP_STATUS_SEND_BODY_FAILED : Int := -109

/-- The code `SMTP_STATUS_SERVER_OAUTH2_LOGIN_DISABLED`. -/
def SMTP_STATUS_SERVER_OAUTH2_LOGIN_DISABLED : Int := -110

/-- The code `SMTP_STATUS_NO_VALID_RECIPIENTS_EXISTED`. -/
def SMTP_STATUS_NO_VALID_RECIPIENTS_EXISTED : Int := -111

/-- The code `SMTP_STATUS_NO_VALID_SENDER_EXISTED`. -/
def SMTP_STATUS_NO_VALID_SENDER_EXISTED : Int := -112

/-- The code `SMTP_STATUS_NO_SUPPORTED_AUTH`. -/
def SMTP_STATUS_NO_SUPPORTED_AUTH : Int := -113

/-- The code `SMTP_STATUS_SEND_CUSTOM_COMMAND_FAILED`. -/
def SMTP_STATUS_SEND_CUSTOM_COMMAND_FAILED : Int := -114

/-- The code `SMTP_STATUS_UNDEFINED`. -/
def SMTP_STATUS_UNDEFINED : Int := -115

/-- The code `IMAP_STATUS_SERVER_CONNECT_FAILED`. -/
def IMAP_STATUS_SERVER_CONNECT_FAILED : Int := -200

/-- The code `IMAP_STATUS_IMAP_RESPONSE_FAILED`. -/
def IMAP_STATUS_IMAP_RESPONSE_FAILED : Int := -201

/-- The code `IMAP_STATUS_LOGIN_FAILED`. -/
def IMAP_STATUS_LOGIN_FAILED : Int := -202

/-- The code `IMAP_STATUS_BAD_COMMAND`. -/
def IMAP_STATUS_BAD_COMMAND : Int := -203

/-- The code `IMAP_STATUS_PARSE_FLAG_FAILED`. -/
def IMAP_STATUS_PARSE_FLAG_FAILED : Int := -204

/-- The code `IMAP_STATUS_SERVER_OAUTH2_LOGIN_DISABLED`. -/
def IMAP_STATUS_SERVER_OAUTH2_LOGIN_DISABLED : Int := -205

/-- The code `IMAP_STATUS_NO_MESSAGE`. -/
def IMAP_STATUS_NO_MESSAGE : Int := -206

/-- The code `IMAP_STATUS_ERROR_DOWNLAD_TIMEOUT`. -/
def IMAP_STATUS_ERROR_DOWNLAD_TIMEOUT : Int := -207

/-- The code `IMAP_STATUS_CLOSE_MAILBOX_FAILED`. -/
def IMAP_STATUS_CLOSE_MAILBOX_FAILED : Int := -208

/-- The code `IMAP_STATUS_OPEN_MAILBOX_FAILED`. -/
def IMAP_STATUS_OPEN_MAILBOX_FAILED : Int := -209

/-- The code `IMAP_STATUS_LIST_MAILBOXS_FAILED`. -/
def IMAP_STATUS_LIST_MAILBOXS_FAILED : Int := -210

/-- The code `IMAP_STATUS_CHECK_CAPABILITIES_FAILED`. -/
def IMAP_STATUS_CHECK_CAPABILITIES_FAILED : Int := -211

/-- The code `IMAP_STATUS_NO_SUPPORTED_AUTH`. -/
def IMAP_STATUS_NO_SUPPORTED_AUTH : Int := -212

/-- The code `IMAP_STATUS_NO_MAILBOX_FOLDER_OPENED`. -/
def IMAP_STATUS_NO_MAILBOX_FOLDER_OPENED : Int := -213

/-- The code `MAIL_CLIENT_ERROR_CONNECTION_CLOSED`. -/
def MAIL_CLIENT_ERROR_CONNECTION_CLOSED : Int := -28

/-- The code `MAIL_CLIENT_ERROR_READ_TIMEOUT`. -/
def MAIL_CLIENT_ERROR_READ_TIMEOUT : Int := -29

/-- The code `MAIL_CLIENT_ERROR_SERVER_CONNECTION_FAILED`. -/
def MAIL_CLIENT_ERROR_SERVER_CONNECTION_FAILED : Int := -31

/-- The code `MAIL_CLIENT_ERROR_SSL_TLS_STRUCTURE_SETUP`. -/
def MAIL_CLIENT_ERROR_SSL_TLS_STRUCTURE_SETUP : Int := -32

/-- The code `MAIL_CLIENT_ERROR_OUT_OF_MEMORY`. -/
def MAIL_CLIENT_ERROR_OUT_OF_MEMORY : Int := -33

/-- The code `MAIL_CLIENT_ERROR_CUSTOM_CLIENT_DISABLED`. -/
def MAIL_CLIENT_ERROR_CUSTOM_CLIENT_DISABLED : Int := -34

/-- The code `MAIL_CLIENT_ERROR_NTP_TIME_SYNC_TIMED_OUT`. -/
def MAIL_CLIENT_ERROR_NTP_TIME_SYNC_TIMED_OUT : Int := -35

/-- Every code that `ESP_Mail_Error.h` defines, in the order of the file: the
TCP client errors, the SMTP status codes, the IMAP status codes and the
common mail client errors. -/
def errorCodes : List Int :=
  [TCP_CLIENT_ERROR_CONNECTION_REFUSED, TCP_CLIENT_ERROR_SEND_DATA_FAILED,
   TCP_CLIENT_ERROR_NOT_INITIALIZED, TCP_CLIENT_ERROR_NOT_CONNECTED,
   SMTP_STATUS_SERVER_CONNECT_FAILED, SMTP_STATUS_SMTP_GREETING_GET_RESPONSE_FAILED,
   SMTP_STATUS_SMTP_GREETING_SEND_ACK_FAILED, SMTP_STATUS_AUTHEN_NOT_SUPPORT,
   SMTP_STATUS_AUTHEN_FAILED, SMTP_STATUS_USER_LOGIN_FAILED,
   SMTP_STATUS_PASSWORD_LOGIN_FAILED, SMTP_STATUS_SEND_HEADER_SENDER_FAILED,
   SMTP_STATUS_SEND_HEADER_RECIPIENT_FAILED, SMTP_STATUS_SEND_BODY_FAILED,
   SMTP_STATUS_SERVER_OAUTH2_LOGIN_DISABLED, SMTP_STATUS_NO_VALID_RECIPIENTS_EXISTED,
   SMTP_STATUS_NO_VALID_SENDER_EXISTED, SMTP_STATUS_NO_SUPPORTED_AUTH,
   SMTP_STATUS_SEND_CUSTOM_COMMAND_FAILED, SMTP_STATUS_UNDEFINED,
   IMAP_STATUS_SERVER_CONNECT_FAILED, IMAP_STATUS_IMAP_RESPONSE_FAILED,
   IMAP_STATUS_LOGIN_FAILED, IMAP_STATUS_BAD_COMMAND, IMAP_STATUS_PARSE_FLAG_FAILED,
   IMAP_STATUS_SERVER_OAUTH2_LOGIN_DISABLED, IMAP_STATUS_NO_MESSAGE,
   IMAP_STATUS_ERROR_DOWNLAD_TIMEOUT, IMAP_STATUS_CLOSE_MAILBOX_FAILED,
   IMAP_STATUS_OPEN_MAILBOX_FAILED, IMAP_STATUS_LIST_MAILBOXS_FAILED,
   IMAP_STATUS_CHECK_CAPABILITIES_FAILED, IMAP_STATUS_NO_SUPPORTED_AUTH,
   IMAP_STATUS_NO_MAILBOX_FOLDER_OPENED, MAIL_CLIENT_ERROR_CONNECTION_CLOSED,
   MAIL_CLIENT_ERROR_READ_TIMEOUT, MAIL_CLIENT_ERROR_SERVER_CONNECTION_FAILED,
   MAIL_CLIENT_ERROR_SSL_TLS_STRUCTURE_SETUP, MAIL_CLIENT_ERROR_OUT_OF_MEMORY,
   MAIL_CLIENT_ERROR_CUSTOM_CLIENT_DISABLED, MAIL_CLIENT_ERROR_NTP_TIME_SYNC_TIMED_OUT]

/-! ## Part number paths -/

/-- The numbers of a part number path `<part>.<sub part>.<sub part>`: the text
cut at every dot. A text without a dot is one number; an empty text is one
empty number. -/
def splitDots : List Char → List (List Char)
  | [] => [[]]
  | c :: cs =>
    if c = '.' then [] :: splitDots cs
    else
      match splitDots cs with
      | [] => [[c]]
      | h :: t => (c :: h) :: t

/-- The text of a path given by its numbers: the numbers with a dot between
neighbours. -/
def joinDots : List (List Char) → List Char
  | [] => []
  | [x] => x
  | x :: y :: rest => x ++ '.' :: joinDots (y :: rest)

/-- Modelled from the spec: the body of `multipartMember` is not in the code
at hand, only its declaration with the comment that it checks whether the
child part number string is a member of the parent part number string. The
spec: a child is a member of a parent iff the parent's path is a proper
dot-separated prefix of the child's: the numbers of the parent are the first
numbers of the child, and the child has more numbers. -/
def multipartMember (parent child : MB_String) : Bool :=
  let p := splitDots parent.data
  let c := splitDots child.data
  decide (p.length < c.length) && p.isPrefixOf c

/-! ## Base64 -/

/-- The 64 characters of the base64 alphabet, in the order of their values. -/
def base64Alphabet : List Char :=
  "ABCDEFGHIJKLMNOPQRSTUVWXYZabcdefghijklmnopqrstuvwxyz0123456789+/".data

/-- The character for a value below 64. -/
def base64Char (n : Nat) : Char := base64Alphabet.getD n '='

/-- The value of a character of the alphabet; no value for another character. -/
def base64Value (c : Char) : Option Nat :=
  let i := base64Alphabet.indexOf c
  if i < 64 then some i else none

/-- The characters for a byte string: four characters for every three bytes,
and a last group padded with `=` for one or two bytes left over. A byte is a
number below 256. -/
def encodeGroups : List Nat → List Char
  | [] => []
  | [a] => [base64Char (a / 4), base64Char (a % 4 * 16), '=', '=']
  | [a, b] =>
    [base64Char (a / 4), base64Char (a % 4 * 16 + b / 16), base64Char (b % 16 * 4), '=']
  | a :: b :: c :: rest =>
    base64Char (a / 4) :: base64Char (a % 4 * 16 + b / 16) ::
      base64Char (b % 16 * 4 + c / 64) :: base64Char (c % 64) :: encodeGroups rest

/-- The bytes for a base64 text: three bytes for every four characters, one
or two bytes for a last group padded with `=`; nothing for a text that is not
base64. -/
def decodeGroups : List Char → Option (List Nat)
  | [] => some []
  | c1 :: c2 :: c3 :: c4 :: rest =>
    match base64Value c1, base64Value c2 with
    | some v1, some v2 =>
      if rest.isEmpty ∧ c4 = '=' then
        if c3 = '=' then some [(v1 * 4 + v2 / 16) % 256]
        else
          match base64Value c3 with
          | some v3 => some [(v1 * 4 + v2 / 16) % 256, (v2 % 16 * 16 + v3 / 4) % 256]
          | none => none
      else
        match base64Value c3, base64Value c4, decodeGroups rest with
        | some v3, some v4, some out =>
          some ((v1 * 4 + v2 / 16) % 256 :: (v2 % 16 * 16 + v3 / 4) % 256 ::
            (v3 % 4 * 64 + v4) % 256 :: out)
        | _, _, _ => none
    | _, _ => none
  | _ => none

/-- Modelled from the spec: `encodeBase64Str(src, len)` is only declared in
the code at hand. The spec: base64 encoding of a byte string. The argument is
the list of the `len` bytes at `src`. -/
def encodeBase64Str (src : List Nat) : MB_String := String.mk (encodeGroups src)

/-- Modelled from the spec: `decodeBase64(src, len, out_len)` is only declared
in the code at hand. The spec: base64 decoding, the inverse of the encoding.
The result is the decoded bytes with the length written to `out_len`, or
nothing (the null pointer) for a text that is not base64. -/
def decodeBase64 (src : MB_String) : Option (List Nat × Nat) :=
  (decodeGroups src.data).map (fun out => (out, out.length))

/-- The full groups of a byte string, encoded, and the bytes left over (fewer
than three). -/
def encodeFull : List Nat → List Char × List Nat
  | a :: b :: c :: rest =>
    (base64Char (a / 4) :: base64Char (a % 4 * 16 + b / 16) ::
      base64Char (b % 16 * 4 + c / 64) :: base64Char (c % 64) :: (encodeFull rest).1,
     (encodeFull rest).2)
  | l => ([], l)

/-- Modelled from the spec: the streaming encoder is chunk-boundary safe: a
chunk may end in the middle of a group, and what is left over is carried to
the next call. The state is the bytes carried. -/
structure Base64Encoder where
  residual : List Nat := []
  deriving DecidableEq, Repr

/-- One call of the streaming encoder: the carried bytes and the chunk are
encoded as far as the groups are full, the rest is carried. -/
def Base64Encoder.update (e : Base64Encoder) (chunk : List Nat) : List Char × Base64Encoder :=
  ((encodeFull (e.residual ++ chunk)).1, { residual := (encodeFull (e.residual ++ chunk)).2 })

/-- The end of the stream: the carried bytes are encoded with padding. -/
def Base64Encoder.final (e : Base64Encoder) : List Char := encodeGroups e.residual

/-- The characters that the streaming encoder gives for the chunks, one call
per chunk from left to right, and the end of the stream. -/
def encodeChunksFrom (e : Base64Encoder) : List (List Nat) → List Char
  | [] => e.final
  | chunk :: chunks => (e.update chunk).1 ++ encodeChunksFrom (e.update chunk).2 chunks

/-- The text that the streaming encoder gives for a byte string that arrives
in the chunks of the list. -/
def encodeBase64Chunks (chunks : List (List Nat)) : MB_String :=
  String.mk (encodeChunksFrom {} chunks)

/-- The bytes of a text, as numbers. -/
def bytesOf (s : String) : List Nat := s.toUTF8.toList.map UInt8.toNat

/-- Modelled from the spec: `mGetBase64(str)` is only declared in the code at
hand; it gives the base64 text of the bytes of the string. -/
def mGetBase64 (str : MB_StringPtr) : MB_String := encodeBase64Str (bytesOf str)

/-- The member `toBase64` of `ESP_Mail_Client`. -/
def toBase64 (str : String) : String := mGetBase64 (toStringPtr str)


/-! ## Selecting a folder -/

/-- A folder command that the IMAP session writes to the transport. -/
inductive IMAPFolderCommand where
  | select (folder : String)
  | examine (folder : String)
  deriving DecidableEq, Repr

/-- The members of the class `IMAPSession` that take part in selecting a
folder, with their initial values, and the folder commands written to the
transport so far. -/
structure IMAPSession where
  _readOnlyMode : Bool := true
  _currentFolder : MB_String := ""
  _mailboxOpened : Bool := false
  _lastSameFolderOpenMillis : Nat := 0
  _mbif : SelectedFolderInfo := {}
  sent : List IMAPFolderCommand := []
  deriving DecidableEq, Repr

/-- The time from `last` to `now` as the difference of two `unsigned long`
readings of `millis()`: the difference modulo `2^32`. -/
def elapsedMillis (now last : Nat) : Nat :=
  (now % 2 ^ 32 + 2 ^ 32 - last % 2 ^ 32) % 2 ^ 32

/-- Modelled from the spec: the test for a re-selection within the debounce
window. The note at `selectFolder` and `openFolder`: the time since the
previous successful folder selection with the same readOnly mode is less than
5 seconds; the spec: same name, same read/write mode. -/
def IMAPSession.sameFolderWithinWindow (s : IMAPSession) (folderName : MB_StringPtr)
    (readOnly : Bool) (millis : Nat) : Bool :=
  s._mailboxOpened && decide (s._currentFolder = folderName) &&
    decide (s._readOnlyMode = readOnly) &&
    decide (elapsedMillis millis s._lastSameFolderOpenMillis < 5000)

/-- Modelled from the spec: `openMailbox` is only declared in the code at
hand. The session writes one `EXAMINE` (read only) or `SELECT` command; the
snapshot of the selected folder is invalidated and fetched again; success
requires the OK answer. The answer of the server is an input: the snapshot
that came with an OK, or nothing for any other outcome. On success the
session remembers the folder, the mode and the time. -/
def IMAPSession.openMailbox (s : IMAPSession) (folderName : MB_StringPtr) (readOnly : Bool)
    (millis : Nat) (answer : Option SelectedFolderInfo) : Bool × IMAPSession :=
  let cmd := if readOnly then IMAPFolderCommand.examine folderName
             else IMAPFolderCommand.select folderName
  let s := { s with sent := s.sent ++ [cmd], _mbif := s._mbif.clear }
  match answer with
  | some snapshot =>
    (true, { s with _mbif := snapshot, _currentFolder := folderName, _mailboxOpened := true,
                    _readOnlyMode := readOnly,
                    _lastSameFolderOpenMillis := millis % 2 ^ 32 })
  | none => (false, { s with _mailboxOpened := false })

/-- Modelled from the spec: `mSelectFolder` is only declared in the code at
hand. A re-selection within the debounce window is a no-op that returns true
with the cached snapshot; any other call opens the mailbox. The reading of
`millis()` and the answer of the server are inputs. -/
def IMAPSession.mSelectFolder (s : IMAPSession) (folderName : MB_StringPtr) (readOnly : Bool)
    (millis : Nat) (answer : Option SelectedFolderInfo) : Bool × IMAPSession :=
  if s.sameFolderWithinWindow folderName readOnly millis then (true, s)
  else s.openMailbox folderName readOnly millis answer

/-- Modelled from the spec: `mOpenFolder` is only declared in the code at
hand; the note at `openFolder` is the note at `selectFolder`. -/
def IMAPSession.mOpenFolder (s : IMAPSession) (folderName : MB_StringPtr) (readOnly : Bool)
    (millis : Nat) (answer : Option SelectedFolderInfo) : Bool × IMAPSession :=
  if s.sameFolderWithinWindow folderName readOnly millis then (true, s)
  else s.openMailbox folderName readOnly millis answer

/-- The member `selectFolder` of `IMAPSession`. -/
def IMAPSession.selectFolder (s : IMAPSession) (folderName : String) (readOnly : Bool)
    (millis : Nat) (answer : Option SelectedFolderInfo) : Bool × IMAPSession :=
  s.mSelectFolder (toStringPtr folderName) readOnly millis answer

/-- The member `openFolder` of `IMAPSession`. -/
def IMAPSession.openFolder (s : IMAPSession) (folderName : String) (readOnly : Bool)
    (millis : Nat) (answer : Option SelectedFolderInfo) : Bool × IMAPSession :=
  s.mOpenFolder (toStringPtr folderName) readOnly millis answer

/-- A snapshot with three messages and two flags. -/
def sampleSnapshot : SelectedFolderInfo :=
  { _msgCount := 3, _recentCount := 1, _nextUID := 17, _flags := ["\\Seen", "\\Deleted"] }

/-- A new session after the selection of INBOX, read only, at 1000 ms. -/
def sampleSelected : IMAPSession :=
  (({} : IMAPSession).selectFolder "INBOX" true 1000 (some sampleSnapshot)).2

/-! ## Sending a message -/

/-- A command of the envelope that the SMTP engine writes to the transport. -/
inductive SMTPEnvelopeCommand where
  | mailFrom (address : String)
  | rcptTo (address : String)
  | data
  deriving DecidableEq, Repr

/-- Modelled from the spec: the status of the last response of the session
(`_smtpStatus`); the session's last error is its status code. The declaration
is not in the code at hand. -/
structure esp_mail_smtp_response_status_t where
  statusCode : Int := 0
  deriving DecidableEq, Repr

/-- The members of the class `SMTPSession` that take part in the envelope of
a send, with their initial values, and the envelope commands written to the
transport so far. -/
structure SMTPSession where
  sendingResult : SendingResult := {}
  _tcpConnected : Bool := false
  _smtpStatus : esp_mail_smtp_response_status_t := {}
  _sentSuccessCount : Int := 0
  _sentFailedCount : Int := 0
  ts : Nat := 0
  sent : List SMTPEnvelopeCommand := []
  deriving DecidableEq, Repr

/-- Modelled from the spec: `checkEmail` is only declared in the code at hand,
with the comment that it checks for a valid recipient email. The spec: the
recipients list must contain at least one syntactically valid address. The
test for a syntactically valid address is an argument. -/
def checkEmail (validEmail : String → Bool) (msg : SMTP_Message) : Bool :=
  msg._rcp.any (fun r => validEmail r.email)

/-- Modelled from the spec: a send error at any stage triggers cleanup (the
session is closed when asked for) and records one failed result; the error is
captured in the session and the operation returns false. -/
def failSend (smtp : SMTPSession) (msg : SMTP_Message) (closeSession : Bool) (err : Int) :
    Bool × SMTPSession :=
  (false,
    { smtp with
      _smtpStatus := { statusCode := err },
      _sentFailedCount := smtp._sentFailedCount + 1,
      _tcpConnected := smtp._tcpConnected && !closeSession,
      sendingResult := smtp.sendingResult.add
        { completed := false, timestamp := smtp.ts,
          recipients := ",".intercalate (msg._rcp.map (fun r => r.email)),
          subject := msg.subject } })

/-- The addresses of the message that pass the test, in the order primary
recipients, carbon copies, blind carbon copies. -/
def validAddresses (validEmail : String → Bool) (msg : SMTP_Message) : List String :=
  ((msg._rcp.map (fun r => r.email)) ++ (msg._cc.map (fun r => r.email)) ++
    (msg._bcc.map (fun r => r.email))).filter validEmail

/-- Modelled from the spec: the body of `sendMail` is not in the code at hand.
The envelope of the send protocol: zero valid recipients aborts with the no
valid recipients error before anything is sent; then `MAIL FROM`, one
`RCPT TO` per valid recipient (invalid addresses are skipped, a rejected
recipient is not fatal while another one is accepted), then `DATA`. What the
server accepts is an argument. -/
def sendMail (validEmail : String → Bool) (accept : SMTPEnvelopeCommand → Bool)
    (smtp : SMTPSession) (msg : SMTP_Message) (closeSession : Bool) : Bool × SMTPSession :=
  if !checkEmail validEmail msg then
    failSend smtp msg closeSession SMTP_STATUS_NO_VALID_RECIPIENTS_EXISTED
  else if !validEmail msg.sender.email then
    failSend smtp msg closeSession SMTP_STATUS_NO_VALID_SENDER_EXISTED
  else
    let smtp := { smtp with sent := smtp.sent ++ [SMTPEnvelopeCommand.mailFrom msg.sender.email] }
    if !accept (SMTPEnvelopeCommand.mailFrom msg.sender.email) then
      failSend smtp msg closeSession SMTP_STATUS_SEND_HEADER_SENDER_FAILED
    else
      let rcpts := (validAddresses validEmail msg).map SMTPEnvelopeCommand.rcptTo
      let smtp := { smtp with sent := smtp.sent ++ rcpts }
      if !rcpts.any accept then
        failSend smtp msg closeSession SMTP_STATUS_SEND_HEADER_RECIPIENT_FAILED
      else
        let smtp := { smtp with sent := smtp.sent ++ [SMTPEnvelopeCommand.data] }
        if !accept SMTPEnvelopeCommand.data then
          failSend smtp msg closeSession SMTP_STATUS_SEND_BODY_FAILED
        else
          (true,
            { smtp with
              _sentSuccessCount := smtp._sentSuccessCount + 1,
              _tcpConnected := smtp._tcpConnected && !closeSession,
              sendingResult := smtp.sendingResult.add
                { completed := true, timestamp := smtp.ts,
                  recipients := ",".intercalate (msg._rcp.map (fun r => r.email)),
                  subject := msg.subject } })

/-- A test for an address, for the examples: the text has an `@`. -/
def hasAt (s : String) : Bool := s.data.contains '@'

/-- A message whose two recipients are not addresses. -/
def sampleNoRecipient : SMTP_Message :=
  ((({ SMTP_Message.new with sender := { name := "Dev", email := "dev@example.com" },
                             subject := "Hello" }).addRecipient "Ann" "ann.example.com").addRecipient
    "Bob" "").addCc "carl@example.com"

/-- A message with one recipient that is an address, and one that is not. -/
def sampleOneRecipient : SMTP_Message :=
  (({ SMTP_Message.new with sender := { name := "Dev", email := "dev@example.com" },
                            subject := "Hello" }).addRecipient "Ann" "ann@example.com").addRecipient
    "Bob" "bob"

/-! ## Sequences of public operations -/

/-- One call of a public operation of `SMTP_Message`, with its arguments. -/
inductive MessageOp where
  | resetAttachItem (att : SMTP_Attachment)
  | clear
  | clearInlineimages
  | clearAttachments
  | clearRFC822Messages
  | clearRecipients
  | clearCc
  | clearBcc
  | clearHeader
  | addAttachment (att : SMTP_Attachment)
  | addParallelAttachment (att : SMTP_Attachment)
  | addInlineImage (att : SMTP_Attachment) (rnd : Nat)
  | addMessage (msg : SMTP_Message)
  | addRecipient (name email : String)
  | addCc (email : String)
  | addBcc (email : String)
  | addHeader (hdr : String)

/-- The message after one call. `resetAttachItem` writes to the item only. -/
def MessageOp.apply (m : SMTP_Message) : MessageOp → SMTP_Message
  | .resetAttachItem _ => m
  | .clear => m.clear
  | .clearInlineimages => m.clearInlineimages
  | .clearAttachments => m.clearAttachments
  | .clearRFC822Messages => m.clearRFC822Messages
  | .clearRecipients => m.clearRecipients
  | .clearCc => m.clearCc
  | .clearBcc => m.clearBcc
  | .clearHeader => m.clearHeader
  | .addAttachment att => (m.addAttachment att).1
  | .addParallelAttachment att => (m.addParallelAttachment att).1
  | .addInlineImage att rnd => (m.addInlineImage att rnd).1
  | .addMessage msg => m.addMessage msg
  | .addRecipient name email => m.addRecipient name email
  | .addCc email => m.addCc email
  | .addBcc email => m.addBcc email
  | .addHeader hdr => m.addHeader hdr

/-- The message after the calls of the list, made from left to right. -/
def runOps (m : SMTP_Message) : List MessageOp → SMTP_Message
  | [] => m
  | op :: ops => runOps (op.apply m) ops

/-- Every entry of `_att` is an attachment or an inline image and is not
flagged parallel; every entry of `_parallel` is an attachment and is flagged
parallel. -/
def listsWellTyped (m : SMTP_Message) : Prop :=
  (∀ e ∈ m._att,
    (e._int.att_type = esp_mail_attach_type.esp_mail_att_type_attachment ∨
      e._int.att_type = esp_mail_attach_type.esp_mail_att_type_inline) ∧
    e._int.parallel = false) ∧
  (∀ e ∈ m._parallel,
    e._int.att_type = esp_mail_attach_type.esp_mail_att_type_attachment ∧
    e._int.parallel = true)

/-- The calls that build the sample message, and then some that do not touch
the attachment lists. -/
def sampleOps : List MessageOp :=
  [.addInlineImage sampleFileItem 2500, .addAttachment sampleBlobItem,
   .addInlineImage sampleBlobItem 3100, .addParallelAttachment sampleFileItem,
   .addAttachment sampleFileItem, .addRecipient "Ann" "ann@example.com",
   .addMessage sampleMessage, .clearRFC822Messages, .clearRecipients]

/-! ## Flag wrappers -/

/-- C1: `setFlag`, `addFlag` and `removeFlag` each return exactly what the one
call of `mSetFlag` with the same session, UID, flags and closeSession returns,
with mode 0, 1 and 2; the three modes are pairwise distinct; seen by a test
double, each wrapper makes one store call, for the UID given. -/
theorem C1_flag_wrappers {IMAPSession : Type}
    (mSetFlag : IMAPSession → Int → MB_StringPtr → Nat → Bool → Bool × IMAPSession)
    (imap : IMAPSession) (msgUID : Int) (flags : String) (closeSession ok : Bool) :
    setFlag mSetFlag imap msgUID flags closeSession
        = mSetFlag imap msgUID flags 0 closeSession ∧
    addFlag mSetFlag imap msgUID flags closeSession
        = mSetFlag imap msgUID flags 1 closeSession ∧
    removeFlag mSetFlag imap msgUID flags closeSession
        = mSetFlag imap msgUID flags 2 closeSession ∧
    ((0 : Nat) ≠ 1 ∧ (0 : Nat) ≠ 2 ∧ (1 : Nat) ≠ 2) ∧
    setFlag (recordStore ok) [] msgUID flags closeSession
        = (ok, [{ msgUID := msgUID, flags := flags, action := 0,
                  closeSession := closeSession }]) ∧
    addFlag (recordStore ok) [] msgUID flags closeSession
        = (ok, [{ msgUID := msgUID, flags := flags, action := 1,
                  closeSession := closeSession }]) ∧
    removeFlag (recordStore ok) [] msgUID flags closeSession
        = (ok, [{ msgUID := msgUID, flags := flags, action := 2,
                  closeSession := closeSession }]) := by
  refine ⟨rfl, rfl, rfl, ⟨by decide, by decide, by decide⟩, rfl, rfl, rfl⟩

/-! ## Adding attachments -/

/-- C2: `addAttachment` appends exactly one entry at the end of `_att`; the
entry has type attachment, parallel flag false, and the blob, file and
descriptor of the item given; the parallel list, the address and header
lists, the nested messages and the public members are unchanged. -/
theorem C2_addAttachment (m : SMTP_Message) (a : SMTP_Attachment) :
    ∃ e : SMTP_Attachment,
      (m.addAttachment a).1._att = m._att ++ [e] ∧
      (m.addAttachment a).1._att.length = m._att.length + 1 ∧
      (m.addAttachment a).1._att.take m._att.length = m._att ∧
      (m.addAttachment a).1._att.getLast? = some e ∧
      e._int.att_type = esp_mail_attach_type.esp_mail_att_type_attachment ∧
      e._int.parallel = false ∧
      e.blob = a.blob ∧ e.file = a.file ∧ e.descr = a.descr ∧
      (m.addAttachment a).1._parallel = m._parallel ∧
      sameAddressLists m (m.addAttachment a).1 ∧
      (m.addAttachment a).1._rfc822 = m._rfc822 ∧
      samePublicMembers m (m.addAttachment a).1 := by
  refine ⟨(m.addAttachment a).2, ?_⟩
  simp [SMTP_Message.addAttachment, sameAddressLists, samePublicMembers]

/-- What a list of adding calls does to `_parallel`: it appends one entry per
call of `addParallelAttachment`, in call order, each flagged parallel. -/
theorem runCalls_parallel (cs : List AddCall) (m : SMTP_Message) :
    ∃ l : List SMTP_Attachment,
      (runCalls m cs)._parallel = m._parallel ++ l ∧
      l.map payload = (parallelArgs cs).map payload ∧
      ∀ e ∈ l, e._int.parallel = true ∧
        e._int.att_type = esp_mail_attach_type.esp_mail_att_type_attachment := by
  induction cs generalizing m with
  | nil => exact ⟨[], by simp [runCalls, parallelArgs]⟩
  | cons c cs ih =>
    obtain ⟨l, h1, h2, h3⟩ := ih (c.apply m)
    cases c with
    | attachment att =>
      refine ⟨l, ?_, ?_, h3⟩
      · simpa [runCalls, AddCall.apply, SMTP_Message.addAttachment] using h1
      · simpa [parallelArgs] using h2
    | parallelAttachment att =>
      refine ⟨(m.addParallelAttachment att).2 :: l, ?_, ?_, ?_⟩
      · simpa [runCalls, AddCall.apply, SMTP_Message.addParallelAttachment] using h1
      · simp [parallelArgs, h2, payload, SMTP_Message.addParallelAttachment]
      · intro e he
        rcases List.mem_cons.mp he with rfl | he
        · simp [SMTP_Message.addParallelAttachment]
        · exact h3 e he
    | inlineImage att rnd =>
      refine ⟨l, ?_, ?_, h3⟩
      · simpa [runCalls, AddCall.apply, SMTP_Message.addInlineImage] using h1
      · simpa [parallelArgs] using h2

/-- What a list of adding calls does to `_att`: it appends entries that are
not flagged parallel; the inline ones among them are the images given to
`addInlineImage`, in call order. -/
theorem runCalls_att (cs : List AddCall) (m : SMTP_Message) :
    ∃ l : List SMTP_Attachment,
      (runCalls m cs)._att = m._att ++ l ∧
      (l.filter isInline).map payload = (inlineArgs cs).map payload ∧
      ∀ e ∈ l, e._int.parallel = false := by
  induction cs generalizing m with
  | nil => exact ⟨[], by simp [runCalls, inlineArgs]⟩
  | cons c cs ih =>
    obtain ⟨l, h1, h2, h3⟩ := ih (c.apply m)
    cases c with
    | attachment att =>
      refine ⟨(m.addAttachment att).2 :: l, ?_, ?_, ?_⟩
      · simpa [runCalls, AddCall.apply, SMTP_Message.addAttachment] using h1
      · simpa [inlineArgs, isInline, SMTP_Message.addAttachment] using h2
      · intro e he
        rcases List.mem_cons.mp he with rfl | he
        · simp [SMTP_Message.addAttachment]
        · exact h3 e he
    | parallelAttachment att =>
      refine ⟨l, ?_, ?_, h3⟩
      · simpa [runCalls, AddCall.apply, SMTP_Message.addParallelAttachment] using h1
      · simpa [inlineArgs] using h2
    | inlineImage att rnd =>
      refine ⟨(m.addInlineImage att rnd).2 :: l, ?_, ?_, ?_⟩
      · simpa [runCalls, AddCall.apply, SMTP_Message.addInlineImage] using h1
      · simp [inlineArgs, isInline, SMTP_Message.addInlineImage, h2, payload]
      · intro e he
        rcases List.mem_cons.mp he with rfl | he
        · simp [SMTP_Message.addInlineImage]
        · exact h3 e he

/-- C3: `addParallelAttachment` appends exactly one entry at the end of
`_parallel`, of type attachment and flagged parallel, with the blob, file and
descriptor of the item given, and leaves `_att` unchanged. So after any calls
of the three adding functions on a new message, the parallel list holds the
items given to `addParallelAttachment`, in call order, every entry of the
parallel list is flagged parallel and no entry of `_att` is. -/
theorem C3_addParallelAttachment (m : SMTP_Message) (a : SMTP_Attachment)
    (cs : List AddCall) :
    (∃ e : SMTP_Attachment,
      (m.addParallelAttachment a).1._parallel = m._parallel ++ [e] ∧
      e._int.att_type = esp_mail_attach_type.esp_mail_att_type_attachment ∧
      e._int.parallel = true ∧ payload e = payload a) ∧
    (m.addParallelAttachment a).1._parallel.take m._parallel.length = m._parallel ∧
    (m.addParallelAttachment a).1._att = m._att ∧
    (runCalls SMTP_Message.new cs)._parallel.map payload = (parallelArgs cs).map payload ∧
    (∀ e ∈ (runCalls SMTP_Message.new cs)._parallel, e._int.parallel = true) ∧
    (∀ e ∈ (runCalls SMTP_Message.new cs)._att, e._int.parallel = false) := by
  refine ⟨⟨(m.addParallelAttachment a).2, ?_⟩, ?_, ?_, ?_, ?_, ?_⟩
  · simp [SMTP_Message.addParallelAttachment, payload]
  · simp [SMTP_Message.addParallelAttachment]
  · simp [SMTP_Message.addParallelAttachment]
  · obtain ⟨l, h1, h2, -⟩ := runCalls_parallel cs SMTP_Message.new
    rw [h1]
    simpa [SMTP_Message.new] using h2
  · obtain ⟨l, h1, -, h3⟩ := runCalls_parallel cs SMTP_Message.new
    rw [h1]
    intro e he
    have he2 : e ∈ l := by simpa [SMTP_Message.new] using he
    exact (h3 e he2).1
  · obtain ⟨l, h1, -, h3⟩ := runCalls_att cs SMTP_Message.new
    rw [h1]
    intro e he
    have he2 : e ∈ l := by simpa [SMTP_Message.new] using he
    exact h3 e he2

/-- C4: `addInlineImage` appends exactly one entry at the end of `_att`, of
type inline and not flagged parallel, with the blob, file and descriptor of
the image given, and leaves the parallel list unchanged. So after any calls of
the three adding functions, in any interleaving, the inline entries of `_att`
in list order are the earlier inline entries followed by the images given to
`addInlineImage`, in call order. -/
theorem C4_addInlineImage (m : SMTP_Message) (a : SMTP_Attachment) (rnd : Nat)
    (cs : List AddCall) :
    (∃ e : SMTP_Attachment,
      (m.addInlineImage a rnd).1._att = m._att ++ [e] ∧
      e._int.att_type = esp_mail_attach_type.esp_mail_att_type_inline ∧
      e._int.parallel = false ∧ payload e = payload a) ∧
    (m.addInlineImage a rnd).1._parallel = m._parallel ∧
    ((runCalls m cs)._att.filter isInline).map payload
      = (m._att.filter isInline).map payload ++ (inlineArgs cs).map payload ∧
    ((runCalls SMTP_Message.new cs)._att.filter isInline).map payload
      = (inlineArgs cs).map payload := by
  refine ⟨⟨(m.addInlineImage a rnd).2, ?_⟩, ?_, ?_, ?_⟩
  · simp [SMTP_Message.addInlineImage, payload]
  · simp [SMTP_Message.addInlineImage]
  · obtain ⟨l, h1, h2, -⟩ := runCalls_att cs m
    rw [h1, List.filter_append, List.map_append, h2]
  · obtain ⟨l, h1, h2, -⟩ := runCalls_att cs SMTP_Message.new
    rw [h1, List.filter_append, List.map_append, h2]
    simp [SMTP_Message.new]

/-! ## Clearing attachments and inline images -/

/-- The conversion `(int)` is exact below `2^31`. -/
theorem castInt_toNat_of_lt (n : Nat) (h : n < 2 ^ 31) : (castInt n).toNat = n := by
  have h32 : n % 2 ^ 32 = n := Nat.mod_eq_of_lt (by omega)
  unfold castInt
  rw [h32, if_pos h]
  simp

/-- Erasing at `k` leaves the first `k` entries alone. -/
theorem take_eraseIdx_self {α : Type} (v : List α) (k : Nat) :
    (v.eraseIdx k).take k = v.take k := by
  induction v generalizing k with
  | nil => simp
  | cons a v ih =>
    cases k with
    | zero => simp
    | succ k => simp [ih]

/-- Erasing at `k` shifts the entries after `k` down by one. -/
theorem drop_eraseIdx_self {α : Type} (v : List α) (k : Nat) :
    (v.eraseIdx k).drop k = v.drop (k + 1) := by
  induction v generalizing k with
  | nil => simp
  | cons a v ih =>
    cases k with
    | zero => simp
    | succ k => simp [ih]

/-- The backward loop, started at or below the size of the list, removes from
the first `k` entries those of type `t` and keeps the rest in order. -/
theorem eraseTypeLoop_eq (t : esp_mail_attach_type) (k : Nat) (v : List SMTP_Attachment)
    (hk : k ≤ v.length) :
    eraseTypeLoop t k v
      = (v.take k).filter (fun a => decide (a._int.att_type ≠ t)) ++ v.drop k := by
  induction k generalizing v with
  | zero => simp [eraseTypeLoop]
  | succ k ih =>
    have hlt : k < v.length := hk
    have hget : v[k]? = some v[k] := List.getElem?_eq_getElem hlt
    have htake : v.take (k + 1) = v.take k ++ [v[k]] := by
      rw [List.take_succ, hget]; rfl
    rw [eraseTypeLoop, hget]
    by_cases ht : v[k]._int.att_type = t
    · have hlen : k ≤ (v.eraseIdx k).length := by
        rw [List.length_eraseIdx_of_lt hlt]; omega
      simp only [ht, if_true]
      have hf : [v[k]].filter (fun a => decide (a._int.att_type ≠ t)) = [] := by
        simp [ht]
      rw [ih (v.eraseIdx k) hlen, take_eraseIdx_self, drop_eraseIdx_self, htake,
        List.filter_append, hf, List.append_nil]
    · simp only [ht, if_false]
      have hf : [v[k]].filter (fun a => decide (a._int.att_type ≠ t)) = [v[k]] := by
        simp [ht]
      rw [ih v (by omega), htake, List.drop_eq_getElem_cons hlt,
        List.filter_append, hf, List.append_assoc]
      rfl

/-- The backward loop without a test removes the first `k` entries. -/
theorem eraseAllLoop_eq {α : Type} (k : Nat) (v : List α) :
    eraseAllLoop k v = v.drop k := by
  induction k generalizing v with
  | zero => simp [eraseAllLoop]
  | succ k ih => rw [eraseAllLoop, ih, drop_eraseIdx_self]

/-- C5: after `clearAttachments`, `_att` is the previous `_att` without its
entries of type attachment (the other entries, so every inline image, are
kept in their order, no attachment entry remains) and the parallel list is
empty. The sizes of the lists are those that the conversion to `int` of the
loop bound represents. -/
theorem C5_clearAttachments (m : SMTP_Message)
    (hatt : m._att.length < 2 ^ 31) (hpar : m._parallel.length < 2 ^ 31) :
    m.clearAttachments._att = m._att.filter (fun a => !isAttachment a) ∧
    m.clearAttachments._att.filter isInline = m._att.filter isInline ∧
    (∀ e ∈ m.clearAttachments._att, isAttachment e = false) ∧
    m.clearAttachments._parallel = [] := by
  have h1 : m.clearAttachments._att = m._att.filter (fun a => !isAttachment a) := by
    simp only [SMTP_Message.clearAttachments, castInt_toNat_of_lt _ hatt]
    rw [eraseTypeLoop_eq _ _ _ (le_refl _)]
    simp [isAttachment]
  refine ⟨h1, ?_, ?_, ?_⟩
  · rw [h1, List.filter_filter]
    congr 1
    funext a
    cases hty : a._int.att_type <;> simp [isInline, isAttachment, hty]
  · intro e he
    rw [h1] at he
    simpa using (List.mem_filter.mp he).2
  · simp only [SMTP_Message.clearAttachments, castInt_toNat_of_lt _ hpar]
    rw [eraseAllLoop_eq]
    simp

/-- C5 at the sample message: the two inline images stay, in their order. -/
theorem C5_clearAttachments_witness :
    sampleMessage._att.length < 2 ^ 31 ∧ sampleMessage._parallel.length < 2 ^ 31 ∧
    sampleMessage.clearAttachments._att
      = [(SMTP_Message.new.addInlineImage sampleFileItem 2500).2,
         (SMTP_Message.new.addInlineImage sampleBlobItem 3100).2] ∧
    sampleMessage.clearAttachments._parallel = [] :=
  ⟨by decide, by decide,
    (C5_clearAttachments sampleMessage (by decide) (by decide)).1.trans (by decide),
    (C5_clearAttachments sampleMessage (by decide) (by decide)).2.2.2⟩

/-- C6: after `clearInlineimages`, `_att` is the previous `_att` without its
entries of type inline (the other entries, so every attachment, are kept in
their order, no inline entry remains) and the parallel list is unchanged. -/
theorem C6_clearInlineimages (m : SMTP_Message) (hatt : m._att.length < 2 ^ 31) :
    m.clearInlineimages._att = m._att.filter (fun a => !isInline a) ∧
    m.clearInlineimages._att.filter isAttachment = m._att.filter isAttachment ∧
    (∀ e ∈ m.clearInlineimages._att, isInline e = false) ∧
    m.clearInlineimages._parallel = m._parallel := by
  have h1 : m.clearInlineimages._att = m._att.filter (fun a => !isInline a) := by
    simp only [SMTP_Message.clearInlineimages, castInt_toNat_of_lt _ hatt]
    rw [eraseTypeLoop_eq _ _ _ (le_refl _)]
    simp [isInline]
  refine ⟨h1, ?_, ?_, ?_⟩
  · rw [h1, List.filter_filter]
    congr 1
    funext a
    cases hty : a._int.att_type <;> simp [isInline, isAttachment, hty]
  · intro e he
    rw [h1] at he
    simpa using (List.mem_filter.mp he).2
  · simp [SMTP_Message.clearInlineimages]

/-- C6 at the sample message: the two attachments stay, in their order, and
the parallel attachment stays. -/
theorem C6_clearInlineimages_witness :
    sampleMessage._att.length < 2 ^ 31 ∧
    sampleMessage.clearInlineimages._att
      = [(SMTP_Message.new.addAttachment sampleBlobItem).2,
         (SMTP_Message.new.addAttachment sampleFileItem).2] ∧
    sampleMessage.clearInlineimages._parallel
      = [(SMTP_Message.new.addParallelAttachment sampleFileItem).2] :=
  ⟨by decide,
    (C6_clearInlineimages sampleMessage (by decide)).1.trans (by decide),
    (C6_clearInlineimages sampleMessage (by decide)).2.2.2.trans (by decide)⟩

/-! ## The source of an attachment -/

/-- C7 fails: an item that was just passed through `resetAttachItem` has
neither source set, an item may have both set, and each of the three adding
functions stores such items all the same. -/
theorem C7_counterexample :
    blobSet (SMTP_Message.new.resetAttachItem sampleBlobItem) = false ∧
    fileSet (SMTP_Message.new.resetAttachItem sampleBlobItem) = false ∧
    (SMTP_Message.new.addAttachment
      (SMTP_Message.new.resetAttachItem sampleBlobItem)).1._att.map exactlyOneSource
      = [false] ∧
    (SMTP_Message.new.addParallelAttachment
      (SMTP_Message.new.resetAttachItem sampleBlobItem)).1._parallel.map exactlyOneSource
      = [false] ∧
    (SMTP_Message.new.addInlineImage
      (SMTP_Message.new.resetAttachItem sampleBlobItem) 2500).1._att.map exactlyOneSource
      = [false] ∧
    (SMTP_Message.new.addAttachment sampleBothItem).1._att.map
      (fun e => (blobSet e, fileSet e)) = [(true, true)] := by
  decide

/-- C7 as amended: the three adding functions store the blob and the file of
the item given without a check, so the stored entry has exactly one source
set if and only if the item given has. -/
theorem C7_source_is_stored_unchecked (m : SMTP_Message) (a : SMTP_Attachment) (rnd : Nat) :
    (∃ e : SMTP_Attachment, (m.addAttachment a).1._att = m._att ++ [e] ∧
      e.blob = a.blob ∧ e.file = a.file ∧ exactlyOneSource e = exactlyOneSource a) ∧
    (∃ e : SMTP_Attachment, (m.addParallelAttachment a).1._parallel = m._parallel ++ [e] ∧
      e.blob = a.blob ∧ e.file = a.file ∧ exactlyOneSource e = exactlyOneSource a) ∧
    (∃ e : SMTP_Attachment, (m.addInlineImage a rnd).1._att = m._att ++ [e] ∧
      e.blob = a.blob ∧ e.file = a.file ∧ exactlyOneSource e = exactlyOneSource a) := by
  refine ⟨⟨(m.addAttachment a).2, ?_⟩, ⟨(m.addParallelAttachment a).2, ?_⟩,
    ⟨(m.addInlineImage a rnd).2, ?_⟩⟩
  · simp [SMTP_Message.addAttachment, exactlyOneSource, blobSet, fileSet]
  · simp [SMTP_Message.addParallelAttachment, exactlyOneSource, blobSet, fileSet]
  · simp [SMTP_Message.addInlineImage, exactlyOneSource, blobSet, fileSet]

/-! ## Recipients, headers and nested messages -/

/-- C8: `addRecipient`, `addCc`, `addBcc` and `addHeader` each append one
entry with the strings given, whatever they are, at the end of their own
list, and leave the other three lists and both attachment lists unchanged. -/
theorem C8_add_address_and_header (m : SMTP_Message) (name email hdr : String) :
    ((m.addRecipient name email)._rcp = m._rcp ++ [{ name := name, email := email }] ∧
      (m.addRecipient name email)._cc = m._cc ∧
      (m.addRecipient name email)._bcc = m._bcc ∧
      (m.addRecipient name email)._hdr = m._hdr ∧
      sameAttachmentLists m (m.addRecipient name email)) ∧
    ((m.addCc email)._cc = m._cc ++ [{ email := email }] ∧
      (m.addCc email)._rcp = m._rcp ∧
      (m.addCc email)._bcc = m._bcc ∧
      (m.addCc email)._hdr = m._hdr ∧
      sameAttachmentLists m (m.addCc email)) ∧
    ((m.addBcc email)._bcc = m._bcc ++ [{ email := email }] ∧
      (m.addBcc email)._rcp = m._rcp ∧
      (m.addBcc email)._cc = m._cc ∧
      (m.addBcc email)._hdr = m._hdr ∧
      sameAttachmentLists m (m.addBcc email)) ∧
    ((m.addHeader hdr)._hdr = m._hdr ++ [hdr] ∧
      (m.addHeader hdr)._rcp = m._rcp ∧
      (m.addHeader hdr)._cc = m._cc ∧
      (m.addHeader hdr)._bcc = m._bcc ∧
      sameAttachmentLists m (m.addHeader hdr)) := by
  simp [SMTP_Message.addRecipient, SMTP_Message.addCc, SMTP_Message.addBcc,
    SMTP_Message.addHeader, sameAttachmentLists, toStringPtr]

/-- C9: `clearRecipients`, `clearCc`, `clearBcc` and `clearHeader` each empty
their own list and leave the other three lists, the attachment lists, the
nested messages and every public member unchanged. -/
theorem C9_clear_address_and_header (m : SMTP_Message) :
    (m.clearRecipients._rcp = [] ∧ m.clearRecipients._cc = m._cc ∧
      m.clearRecipients._bcc = m._bcc ∧ m.clearRecipients._hdr = m._hdr ∧
      sameAttachmentLists m m.clearRecipients ∧ m.clearRecipients._rfc822 = m._rfc822 ∧
      samePublicMembers m m.clearRecipients) ∧
    (m.clearCc._cc = [] ∧ m.clearCc._rcp = m._rcp ∧
      m.clearCc._bcc = m._bcc ∧ m.clearCc._hdr = m._hdr ∧
      sameAttachmentLists m m.clearCc ∧ m.clearCc._rfc822 = m._rfc822 ∧
      samePublicMembers m m.clearCc) ∧
    (m.clearBcc._bcc = [] ∧ m.clearBcc._rcp = m._rcp ∧
      m.clearBcc._cc = m._cc ∧ m.clearBcc._hdr = m._hdr ∧
      sameAttachmentLists m m.clearBcc ∧ m.clearBcc._rfc822 = m._rfc822 ∧
      samePublicMembers m m.clearBcc) ∧
    (m.clearHeader._hdr = [] ∧ m.clearHeader._rcp = m._rcp ∧
      m.clearHeader._cc = m._cc ∧ m.clearHeader._bcc = m._bcc ∧
      sameAttachmentLists m m.clearHeader ∧ m.clearHeader._rfc822 = m._rfc822 ∧
      samePublicMembers m m.clearHeader) := by
  simp [SMTP_Message.clearRecipients, SMTP_Message.clearCc, SMTP_Message.clearBcc,
    SMTP_Message.clearHeader, sameAttachmentLists, samePublicMembers]

/-- Adding nested messages one after the other appends them in that order. -/
theorem foldl_addMessage_rfc822 (ns : List SMTP_Message) (m : SMTP_Message) :
    (ns.foldl SMTP_Message.addMessage m)._rfc822 = m._rfc822 ++ ns := by
  induction ns generalizing m with
  | nil => simp
  | cons n ns ih => simp [ih, SMTP_Message.addMessage]

/-- C10: `addMessage` appends a copy of the message given at the end of the
nested message list (the length grows by one, the earlier nested messages
stay as they are, in their order) and changes no other member; nested
messages added one after the other are kept in that order. -/
theorem C10_addMessage (m n : SMTP_Message) (ns : List SMTP_Message) :
    (m.addMessage n)._rfc822 = m._rfc822 ++ [n] ∧
    (m.addMessage n)._rfc822.length = m._rfc822.length + 1 ∧
    (m.addMessage n)._rfc822.take m._rfc822.length = m._rfc822 ∧
    (m.addMessage n)._rfc822.getLast? = some n ∧
    sameAddressLists m (m.addMessage n) ∧
    sameAttachmentLists m (m.addMessage n) ∧
    samePublicMembers m (m.addMessage n) ∧
    (ns.foldl SMTP_Message.addMessage m)._rfc822 = m._rfc822 ++ ns := by
  refine ⟨?_, ?_, ?_, ?_, ?_, ?_, ?_, foldl_addMessage_rfc822 ns m⟩ <;>
    simp [SMTP_Message.addMessage, sameAddressLists, sameAttachmentLists, samePublicMembers]

/-! ## Clearing the nested messages -/

/-- Erasing the entry that was just written is erasing the old entry. -/
theorem eraseIdx_set_self {α : Type} (v : List α) (k : Nat) (x : α) :
    (v.set k x).eraseIdx k = v.eraseIdx k := by
  induction v generalizing k with
  | nil => simp
  | cons a v ih =>
    cases k with
    | zero => simp
    | succ k => simp [ih]

/-- The loop of `clearRFC822Messages` removes the first `k` entries. -/
theorem clearRFC822Loop_eq (k : Nat) (v : List SMTP_Message) :
    clearRFC822Loop k v = v.drop k := by
  induction k generalizing v with
  | zero => simp [clearRFC822Loop]
  | succ k ih =>
    rw [clearRFC822Loop]
    cases hget : v[k]? with
    | none =>
      have hlen : v.length ≤ k := List.getElem?_eq_none_iff.mp hget
      simp only []
      rw [ih, List.drop_eq_nil_of_le hlen, List.drop_eq_nil_of_le (by omega)]
    | some x =>
      simp only []
      rw [ih, eraseIdx_set_self, drop_eraseIdx_self]

/-- C11: after `clearRFC822Messages` the nested message list is empty, and
the address and header lists, both attachment lists and every public member
are as before. The size of the list is one that the conversion to `int` of
the loop bound represents. -/
theorem C11_clearRFC822Messages (m : SMTP_Message) (hlen : m._rfc822.length < 2 ^ 31) :
    m.clearRFC822Messages._rfc822 = [] ∧
    sameAddressLists m m.clearRFC822Messages ∧
    sameAttachmentLists m m.clearRFC822Messages ∧
    samePublicMembers m m.clearRFC822Messages := by
  refine ⟨?_, ?_, ?_, ?_⟩
  · simp only [SMTP_Message.clearRFC822Messages, castInt_toNat_of_lt _ hlen]
    rw [clearRFC822Loop_eq]
    simp
  · simp [SMTP_Message.clearRFC822Messages, sameAddressLists]
  · simp [SMTP_Message.clearRFC822Messages, sameAttachmentLists]
  · simp [SMTP_Message.clearRFC822Messages, samePublicMembers]

/-- C11 at the sample with two nested messages: both are gone, the recipient
stays. -/
theorem C11_clearRFC822Messages_witness :
    sampleNested._rfc822.length = 2 ∧ sampleNested._rfc822.length < 2 ^ 31 ∧
    sampleNested.clearRFC822Messages._rfc822 = [] ∧
    sampleNested.clearRFC822Messages._rcp = [{ name := "Ann", email := "ann@example.com" }] :=
  ⟨by decide, by decide,
    (C11_clearRFC822Messages sampleNested (by decide)).1,
    (C11_clearRFC822Messages sampleNested (by decide)).2.1.1.trans (by decide)⟩

/-! ## The flags of the selected folder -/

/-- Recording flags one after the other appends them in that order. -/
theorem foldl_addFlag_flags (fs : List String) (s : SelectedFolderInfo) :
    (fs.foldl SelectedFolderInfo.addFlag s)._flags = s._flags ++ fs := by
  induction fs generalizing s with
  | nil => simp
  | cons f fs ih => simp [ih, SelectedFolderInfo.addFlag]

/-- The flag list after `recordFlags` is the list of the flags recorded. -/
theorem recordFlags_flags (s : SelectedFolderInfo) (fs : List String) :
    (recordFlags s fs)._flags = fs := by
  simp [recordFlags, foldl_addFlag_flags, SelectedFolderInfo.clear]

/-- C12: after the calls `addFlag(f0)`, ..., `addFlag(f(n-1))` since the last
clear, `flagCount()` is `n`, `flag(i)` is `fi` for every `i < n`, and
`flag(i)` is the empty string for every `i >= n`. -/
theorem C12_flags_of_selected_folder (s : SelectedFolderInfo) (fs : List String) :
    (recordFlags s fs).flagCount = fs.length ∧
    (∀ (i : Nat) (h : i < fs.length), (recordFlags s fs).flag i = fs[i]) ∧
    (∀ i : Nat, fs.length ≤ i → (recordFlags s fs).flag i = "") ∧
    (∀ i : Nat, (recordFlags s fs).flag i = fs.getD i "") := by
  have hfl := recordFlags_flags s fs
  refine ⟨?_, ?_, ?_, ?_⟩
  · simp [SelectedFolderInfo.flagCount, hfl]
  · intro i h
    simp [SelectedFolderInfo.flag, hfl, h]
  · intro i h
    have hn : ¬ i < fs.length := by omega
    simp [SelectedFolderInfo.flag, hfl, hn]
  · intro i
    by_cases h : i < fs.length
    · simp [SelectedFolderInfo.flag, hfl, h, List.getD_eq_getElem?_getD]
    · have hle : fs.length ≤ i := by omega
      simp [SelectedFolderInfo.flag, hfl, h, List.getD_eq_getElem?_getD,
        List.getElem?_eq_none hle]

/-- C13 fails: on a snapshot that already holds the flag `\Seen`, `addFlag`
of the same flag raises `flagCount()` from 1 to 2 and changes `flag(1)` from
the empty string to the flag. -/
theorem C13_counterexample :
    (recordFlags {} ["\\Seen"]).flagCount = 1 ∧
    (recordFlags {} ["\\Seen"]).flag 0 = "\\Seen" ∧
    (recordFlags {} ["\\Seen"]).flag 1 = "" ∧
    ((recordFlags {} ["\\Seen"]).addFlag "\\Seen").flagCount = 2 ∧
    ((recordFlags {} ["\\Seen"]).addFlag "\\Seen").flag 1 = "\\Seen" := by
  decide

/-- C13 as amended: `addFlag(f)` appends `f` at the end of the flag list,
also when `f` is already in it: `flagCount()` grows by one, `flag(i)` is
unchanged for every `i` below the old count, and `flag` at the old count is
`f`. -/
theorem C13_addFlag_appends (s : SelectedFolderInfo) (f : String) :
    (s.addFlag f).flagCount = s.flagCount + 1 ∧
    (∀ i : Nat, i < s.flagCount → (s.addFlag f).flag i = s.flag i) ∧
    (s.addFlag f).flag s.flagCount = f := by
  refine ⟨?_, ?_, ?_⟩
  · simp [SelectedFolderInfo.addFlag, SelectedFolderInfo.flagCount]
  · intro i hi
    have hi1 : i < s._flags.length := hi
    have hi2 : i < s._flags.length + 1 := by omega
    simp [SelectedFolderInfo.addFlag, SelectedFolderInfo.flag, hi1, hi2,
      List.getElem_append_left]
  · simp [SelectedFolderInfo.addFlag, SelectedFolderInfo.flag, SelectedFolderInfo.flagCount]

/-! ## The folder list -/

/-- Adding folders one after the other appends them in that order. -/
theorem foldl_add_folders (ds : List esp_mail_folder_info_t) (c : FoldersCollection) :
    (ds.foldl FoldersCollection.add c)._folders = c._folders ++ ds := by
  induction ds generalizing c with
  | nil => simp
  | cons d ds ih => simp [ih, FoldersCollection.add]

/-- C14: for the collection built by adding `d0`, ..., `d(n-1)`, `size()` is
`n`, `info(i)` for `i < n` has the name, attributes and delimiter of `di`,
and `info(i)` for `i >= n` has empty name, attributes and delimiter. -/
theorem C14_folders_collection (ds : List esp_mail_folder_info_t) :
    (buildFolders ds).size = ds.length ∧
    (∀ (i : Nat) (h : i < ds.length),
      (buildFolders ds).info i
        = { name := ds[i].name, attributes := ds[i].attributes,
            delimiter := ds[i].delimiter }) ∧
    (∀ i : Nat, ds.length ≤ i →
      (buildFolders ds).info i = { name := "", attributes := "", delimiter := "" }) := by
  have hfl : (buildFolders ds)._folders = ds := by
    simp [buildFolders, foldl_add_folders]
  refine ⟨?_, ?_, ?_⟩
  · simp [FoldersCollection.size, hfl]
  · intro i h
    simp [FoldersCollection.info, hfl, h]
  · intro i h
    have hn : ¬ i < ds.length := by omega
    simp [FoldersCollection.info, hfl, hn]

/-! ## The sending results -/

/-- C15: `add(r)` raises `size()` by one, `getItem` at the old size is then
`r` and `getItem(i)` for `i` below the old size is unchanged; `getItem(i)`
for `i >= size()` is a record that was only constructed; after `clear()`,
`size()` is 0. -/
theorem C15_sending_result (s : SendingResult) (r : SMTP_Result) :
    (s.add r).size = s.size + 1 ∧
    (s.add r).getItem s.size = r ∧
    (∀ i : Nat, i < s.size → (s.add r).getItem i = s.getItem i) ∧
    (∀ i : Nat, s.size ≤ i → s.getItem i = {}) ∧
    s.clear.size = 0 := by
  refine ⟨?_, ?_, ?_, ?_, ?_⟩
  · simp [SendingResult.add, SendingResult.size]
  · simp [SendingResult.add, SendingResult.size, SendingResult.getItem]
  · intro i hi
    have hi1 : i < s._result.length := hi
    have hi2 : i < s._result.length + 1 := by omega
    simp [SendingResult.add, SendingResult.getItem, hi1, hi2, List.getElem_append_left]
  · intro i hi
    have hn : ¬ i < s._result.length := by
      have : s._result.length ≤ i := hi
      omega
    simp [SendingResult.getItem, hn]
  · simp [SendingResult.clear, SendingResult.size]

/-! ## The error codes -/

/-- C16: the 41 codes of `ESP_Mail_Error.h` are pairwise distinct; so the code
for no supported authentication differs from every other code, in particular
from the codes for authentication not supported and authentication failed
(SMTP) and from login failed (IMAP), and the code for no valid recipients
differs from the code for no valid sender. -/
theorem C16_error_codes_distinct :
    errorCodes.Nodup ∧ errorCodes.length = 41 ∧
    SMTP_STATUS_NO_SUPPORTED_AUTH ∈ errorCodes ∧
    IMAP_STATUS_NO_SUPPORTED_AUTH ∈ errorCodes ∧
    (∀ c ∈ errorCodes.erase SMTP_STATUS_NO_SUPPORTED_AUTH,
      c ≠ SMTP_STATUS_NO_SUPPORTED_AUTH) ∧
    (∀ c ∈ errorCodes.erase IMAP_STATUS_NO_SUPPORTED_AUTH,
      c ≠ IMAP_STATUS_NO_SUPPORTED_AUTH) ∧
    SMTP_STATUS_NO_SUPPORTED_AUTH ≠ SMTP_STATUS_AUTHEN_NOT_SUPPORT ∧
    SMTP_STATUS_NO_SUPPORTED_AUTH ≠ SMTP_STATUS_AUTHEN_FAILED ∧
    IMAP_STATUS_NO_SUPPORTED_AUTH ≠ IMAP_STATUS_LOGIN_FAILED ∧
    SMTP_STATUS_NO_VALID_RECIPIENTS_EXISTED ≠ SMTP_STATUS_NO_VALID_SENDER_EXISTED := by
  have hnd : errorCodes.Nodup := by decide
  refine ⟨hnd, by decide, by decide, by decide, ?_, ?_, by decide, by decide, by decide,
    by decide⟩
  · intro c hc
    exact ((List.Nodup.mem_erase_iff hnd).mp hc).1
  · intro c hc
    exact ((List.Nodup.mem_erase_iff hnd).mp hc).1

/-! ## Membership of part number paths -/

/-- A path has at least one number. -/
theorem splitDots_ne_nil (l : List Char) : splitDots l ≠ [] := by
  cases l with
  | nil => simp [splitDots]
  | cons c cs =>
    by_cases hc : c = '.'
    · simp [splitDots, hc]
    · cases hs : splitDots cs <;> simp [splitDots, hc, hs]

/-- Cutting a text at the dots cuts the two sides of a dot apart. -/
theorem splitDots_append_dot (a b : List Char) :
    splitDots (a ++ '.' :: b) = splitDots a ++ splitDots b := by
  induction a with
  | nil => simp [splitDots]
  | cons c cs ih =>
    by_cases hc : c = '.'
    · simp [splitDots, hc, ih]
    · cases hs : splitDots cs with
      | nil => exact absurd hs (splitDots_ne_nil cs)
      | cons h t => simp [splitDots, hc, ih, hs]

/-- Joining puts a first character in front of the first number. -/
theorem joinDots_cons_cons (c : Char) (h : List Char) (t : List (List Char)) :
    joinDots ((c :: h) :: t) = c :: joinDots (h :: t) := by
  cases t <;> simp [joinDots]

/-- Joining the numbers of a text gives the text back. -/
theorem joinDots_splitDots (l : List Char) : joinDots (splitDots l) = l := by
  induction l with
  | nil => simp [splitDots, joinDots]
  | cons c cs ih =>
    cases hs : splitDots cs with
    | nil => exact absurd hs (splitDots_ne_nil cs)
    | cons h t =>
      rw [hs] at ih
      by_cases hc : c = '.'
      · simp [splitDots, hc, hs, joinDots, ih]
      · simp [splitDots, hc, hs, joinDots_cons_cons, ih]

/-- Joining two paths puts a dot between them. -/
theorem joinDots_append (p t : List (List Char)) (hp : p ≠ []) (ht : t ≠ []) :
    joinDots (p ++ t) = joinDots p ++ '.' :: joinDots t := by
  induction p with
  | nil => exact absurd rfl hp
  | cons x p ih =>
    cases p with
    | nil =>
      cases t with
      | nil => exact absurd rfl ht
      | cons y t => simp [joinDots]
    | cons y p =>
      have ih2 := ih (by simp)
      simp only [List.cons_append] at ih2 ⊢
      simp [joinDots, ih2]

/-- C17: `multipartMember(parent, child)` is true if and only if `child`
starts with `parent` followed by a dot; so `1.2` has the member `1.2.3`, but
neither `1.2` itself nor `1.23`. -/
theorem C17_multipartMember (parent child : String) :
    (multipartMember parent child = true ↔ ∃ rest : String, child = parent ++ "." ++ rest) ∧
    multipartMember "1.2" "1.2.3" = true ∧
    multipartMember "1.2" "1.2" = false ∧
    multipartMember "1.2" "1.23" = false := by
  refine ⟨⟨?_, ?_⟩, by decide, by decide, by decide⟩
  · intro h
    simp only [multipartMember, Bool.and_eq_true, decide_eq_true_eq,
      List.isPrefixOf_iff_prefix] at h
    obtain ⟨hlen, t, ht⟩ := h
    have htne : t ≠ [] := by
      intro h0
      rw [h0, List.append_nil] at ht
      rw [ht] at hlen
      exact absurd hlen (lt_irrefl _)
    refine ⟨String.mk (joinDots t), ?_⟩
    apply String.ext
    have hjoin := joinDots_append (splitDots parent.data) t (splitDots_ne_nil _) htne
    rw [ht, joinDots_splitDots, joinDots_splitDots] at hjoin
    simpa using hjoin
  · rintro ⟨rest, rfl⟩
    have hdata : (parent ++ "." ++ rest).data = parent.data ++ '.' :: rest.data := by
      simp
    simp only [multipartMember, Bool.and_eq_true, decide_eq_true_eq,
      List.isPrefixOf_iff_prefix, hdata, splitDots_append_dot]
    refine ⟨?_, List.prefix_append _ _⟩
    have hpos : 0 < (splitDots rest.data).length :=
      List.length_pos.mpr (splitDots_ne_nil _)
    simp only [List.length_append]
    omega

/-! ## Base64 round trip -/

/-- The value of the character for a value below 64 is that value. -/
theorem base64Value_base64Char : ∀ n : Nat, n < 64 → base64Value (base64Char n) = some n := by
  decide

/-- The character for a value below 64 is not the padding character. -/
theorem base64Char_ne_pad : ∀ n : Nat, n < 64 → base64Char n ≠ '=' := by
  decide

/-- Decoding undoes encoding, on the level of character lists. -/
theorem decodeGroups_encodeGroups :
    ∀ src : List Nat, (∀ b ∈ src, b < 256) → decodeGroups (encodeGroups src) = some src
  | [], _ => rfl
  | [a], h => by
    have ha : a < 256 := h a (by simp)
    have h1 := base64Value_base64Char (a / 4) (by omega)
    have h2 := base64Value_base64Char (a % 4 * 16) (by omega)
    simp only [encodeGroups, decodeGroups, h1, h2, List.isEmpty_nil, and_self, if_true]
    have e : (a / 4 * 4 + a % 4 * 16 / 16) % 256 = a := by omega
    rw [e]
  | [a, b], h => by
    have ha : a < 256 := h a (by simp)
    have hb : b < 256 := h b (by simp)
    have h1 := base64Value_base64Char (a / 4) (by omega)
    have h2 := base64Value_base64Char (a % 4 * 16 + b / 16) (by omega)
    have h3 := base64Value_base64Char (b % 16 * 4) (by omega)
    have hp := base64Char_ne_pad (b % 16 * 4) (by omega)
    simp only [encodeGroups, decodeGroups, h1, h2, h3, hp, List.isEmpty_nil, and_self,
      if_true, if_false]
    have e1 : (a / 4 * 4 + (a % 4 * 16 + b / 16) / 16) % 256 = a := by omega
    have e2 : ((a % 4 * 16 + b / 16) % 16 * 16 + b % 16 * 4 / 4) % 256 = b := by omega
    rw [e1, e2]
  | a :: b :: c :: rest, h => by
    have ha : a < 256 := h a (by simp)
    have hb : b < 256 := h b (by simp)
    have hc : c < 256 := h c (by simp)
    have ih := decodeGroups_encodeGroups rest (fun x hx => h x (by simp [hx]))
    have h1 := base64Value_base64Char (a / 4) (by omega)
    have h2 := base64Value_base64Char (a % 4 * 16 + b / 16) (by omega)
    have h3 := base64Value_base64Char (b % 16 * 4 + c / 64) (by omega)
    have h4 := base64Value_base64Char (c % 64) (by omega)
    have hp := base64Char_ne_pad (c % 64) (by omega)
    simp only [encodeGroups, decodeGroups, h1, h2, h3, h4, hp, ih, and_false, if_false]
    have e1 : (a / 4 * 4 + (a % 4 * 16 + b / 16) / 16) % 256 = a := by omega
    have e2 : ((a % 4 * 16 + b / 16) % 16 * 16 + (b % 16 * 4 + c / 64) / 4) % 256 = b := by
      omega
    have e3 : ((b % 16 * 4 + c / 64) % 4 * 64 + c % 64) % 256 = c := by omega
    rw [e1, e2, e3]

/-- Encoding a byte string is encoding its full groups and then, with what
follows, the bytes left over. -/
theorem encodeGroups_append :
    ∀ l x : List Nat,
      encodeGroups (l ++ x) = (encodeFull l).1 ++ encodeGroups ((encodeFull l).2 ++ x)
  | [], x => by simp [encodeFull]
  | [a], x => by simp [encodeFull]
  | [a, b], x => by simp [encodeFull]
  | a :: b :: c :: rest, x => by
    have ih := encodeGroups_append rest x
    simp only [List.cons_append, encodeGroups, encodeFull, List.append_eq, ih]

/-- The streaming encoder gives the characters of the one-shot encoding of
the carried bytes followed by all the chunks. -/
theorem encodeChunksFrom_eq (chunks : List (List Nat)) (e : Base64Encoder) :
    encodeChunksFrom e chunks = encodeGroups (e.residual ++ chunks.flatten) := by
  induction chunks generalizing e with
  | nil => simp [encodeChunksFrom, Base64Encoder.final]
  | cons chunk chunks ih =>
    rw [encodeChunksFrom, ih]
    simp only [Base64Encoder.update, List.flatten_cons]
    rw [← List.append_assoc, encodeGroups_append (e.residual ++ chunk) chunks.flatten]

/-- The bytes of a text are below 256. -/
theorem bytesOf_lt (s : String) : ∀ b ∈ bytesOf s, b < 256 := by
  intro b hb
  simp only [bytesOf, List.mem_map] at hb
  obtain ⟨x, -, rfl⟩ := hb
  exact UInt8.toNat_lt_size x

/-- C18: `decodeBase64` applied to the output of `encodeBase64Str` on a byte
string gives back exactly those bytes, with `out_len` the length of the
input; the same holds when the input is encoded in chunks cut at any
boundaries, where the streaming encoder gives the text of the one-shot
encoding; and for the text of `toBase64`. -/
theorem C18_base64_roundtrip (src : List Nat) (hbytes : ∀ b ∈ src, b < 256) :
    decodeBase64 (encodeBase64Str src) = some (src, src.length) ∧
    (∀ chunks : List (List Nat), chunks.flatten = src →
      encodeBase64Chunks chunks = encodeBase64Str src ∧
      decodeBase64 (encodeBase64Chunks chunks) = some (src, src.length)) ∧
    (∀ s : String, decodeBase64 (toBase64 s) = some (bytesOf s, (bytesOf s).length)) := by
  have hone : ∀ l : List Nat, (∀ b ∈ l, b < 256) →
      decodeBase64 (encodeBase64Str l) = some (l, l.length) := by
    intro l hl
    simp [decodeBase64, encodeBase64Str, decodeGroups_encodeGroups l hl]
  refine ⟨hone src hbytes, ?_, ?_⟩
  · intro chunks hsplit
    have henc : encodeBase64Chunks chunks = encodeBase64Str src := by
      simp [encodeBase64Chunks, encodeBase64Str, encodeChunksFrom_eq, hsplit]
    exact ⟨henc, by rw [henc]; exact hone src hbytes⟩
  · intro s
    exact hone (bytesOf s) (bytesOf_lt s)

/-- C18 at the four bytes of `Man!`, cut into chunks of one, two and one
byte. -/
theorem C18_base64_roundtrip_witness :
    (∀ b ∈ [77, 97, 110, 33], b < 256) ∧
    encodeBase64Str [77, 97, 110, 33] = "TWFuIQ==" ∧
    decodeBase64 (encodeBase64Str [77, 97, 110, 33]) = some ([77, 97, 110, 33], 4) ∧
    encodeBase64Chunks [[77], [97, 110], [33]] = encodeBase64Str [77, 97, 110, 33] :=
  ⟨by decide, by decide,
    (C18_base64_roundtrip [77, 97, 110, 33] (by decide)).1,
    ((C18_base64_roundtrip [77, 97, 110, 33] (by decide)).2.1
      [[77], [97, 110], [33]] (by decide)).1⟩

/-! ## Re-selecting a folder -/

/-- A call that returns true leaves the session with the folder open, under
the name and in the mode of the call. -/
theorem mSelectFolder_ok_state (s : IMAPSession) (folder : MB_StringPtr) (ro : Bool)
    (t : Nat) (answer : Option SelectedFolderInfo)
    (hok : (s.mSelectFolder folder ro t answer).1 = true) :
    (s.mSelectFolder folder ro t answer).2._mailboxOpened = true ∧
    (s.mSelectFolder folder ro t answer).2._currentFolder = folder ∧
    (s.mSelectFolder folder ro t answer).2._readOnlyMode = ro := by
  unfold IMAPSession.mSelectFolder at hok ⊢
  by_cases hw : s.sameFolderWithinWindow folder ro t = true
  · simp only [hw, if_true]
    have hw2 := hw
    simp only [IMAPSession.sameFolderWithinWindow, Bool.and_eq_true, decide_eq_true_eq] at hw2
    exact ⟨hw2.1.1.1, hw2.1.1.2, hw2.1.2⟩
  · simp only [hw] at hok ⊢
    cases answer with
    | none => simp [IMAPSession.openMailbox] at hok
    | some snap => simp [IMAPSession.openMailbox]

/-- A call writes at most one command. -/
theorem mSelectFolder_sent (s : IMAPSession) (folder : MB_StringPtr) (ro : Bool)
    (t : Nat) (answer : Option SelectedFolderInfo) :
    (s.mSelectFolder folder ro t answer).2.sent.length ≤ s.sent.length + 1 := by
  unfold IMAPSession.mSelectFolder
  by_cases hw : s.sameFolderWithinWindow folder ro t = true
  · simp [hw]
  · cases answer <;> simp [hw, IMAPSession.openMailbox]


/-- C19: when `selectFolder` has returned true and it (or `openFolder`) is
called again with the same folder name and the same readOnly mode less than
5 seconds after the time that the session has recorded for the previous
successful selection, the call returns true, writes no SELECT or EXAMINE
command and leaves the session, so the cached snapshot, unchanged; the two
calls together write at most one command. A call that really selects records
its own time, so that the window is counted from it. -/
theorem C19_reselect_debounced (s0 : IMAPSession) (folder : String) (ro : Bool)
    (t0 t1 : Nat) (answer0 answer1 : Option SelectedFolderInfo)
    (hok : (s0.selectFolder folder ro t0 answer0).1 = true)
    (hwin : elapsedMillis t1
      (s0.selectFolder folder ro t0 answer0).2._lastSameFolderOpenMillis < 5000) :
    (s0.selectFolder folder ro t0 answer0).2.selectFolder folder ro t1 answer1
      = (true, (s0.selectFolder folder ro t0 answer0).2) ∧
    (s0.selectFolder folder ro t0 answer0).2.openFolder folder ro t1 answer1
      = (true, (s0.selectFolder folder ro t0 answer0).2) ∧
    ((s0.selectFolder folder ro t0 answer0).2.selectFolder folder ro t1 answer1).2.sent
      = (s0.selectFolder folder ro t0 answer0).2.sent ∧
    ((s0.selectFolder folder ro t0 answer0).2.selectFolder folder ro t1 answer1).2._mbif
      = (s0.selectFolder folder ro t0 answer0).2._mbif ∧
    ((s0.selectFolder folder ro t0 answer0).2.selectFolder folder ro t1 answer1).2.sent.length
      ≤ s0.sent.length + 1 ∧
    (s0.sameFolderWithinWindow folder ro t0 = false →
      (s0.selectFolder folder ro t0 answer0).2._lastSameFolderOpenMillis = t0 % 2 ^ 32 ∧
      (s0.selectFolder folder ro t0 answer0).2.sent.length = s0.sent.length + 1) := by
  have hst := mSelectFolder_ok_state s0 folder ro t0 answer0 hok
  have hlen := mSelectFolder_sent s0 folder ro t0 answer0
  have hguard : (s0.selectFolder folder ro t0 answer0).2.sameFolderWithinWindow
      folder ro t1 = true := by
    simp only [IMAPSession.sameFolderWithinWindow, Bool.and_eq_true, decide_eq_true_eq]
    exact ⟨⟨⟨hst.1, hst.2.1⟩, hst.2.2⟩, hwin⟩
  have hsel : (s0.selectFolder folder ro t0 answer0).2.selectFolder folder ro t1 answer1
      = (true, (s0.selectFolder folder ro t0 answer0).2) := by
    simp only [IMAPSession.selectFolder, IMAPSession.mSelectFolder, toStringPtr] at hguard ⊢
    rw [if_pos hguard]
  have hopen : (s0.selectFolder folder ro t0 answer0).2.openFolder folder ro t1 answer1
      = (true, (s0.selectFolder folder ro t0 answer0).2) := by
    simp only [IMAPSession.selectFolder, IMAPSession.openFolder, IMAPSession.mOpenFolder,
      IMAPSession.mSelectFolder, toStringPtr] at hguard ⊢
    rw [if_pos hguard]
  refine ⟨hsel, hopen, by rw [hsel], by rw [hsel], by rw [hsel]; exact hlen, ?_⟩
  intro hno
  have hanswer : ∃ snap, answer0 = some snap := by
    cases answer0 with
    | none =>
      simp [IMAPSession.selectFolder, IMAPSession.mSelectFolder, toStringPtr, hno,
        IMAPSession.openMailbox] at hok
    | some snap => exact ⟨snap, rfl⟩
  obtain ⟨snap, rfl⟩ := hanswer
  simp [IMAPSession.selectFolder, IMAPSession.mSelectFolder, toStringPtr, hno,
    IMAPSession.openMailbox]

/-- C19 at a new session: INBOX is selected read only at 1000 ms, with an OK
answer; the call at 4000 ms, for which the server would answer NO, returns
true and changes nothing, and one command was written in all; at 6000 ms the
window is over and the call writes a second command. -/
theorem C19_reselect_debounced_witness :
    (({} : IMAPSession).selectFolder "INBOX" true 1000 (some sampleSnapshot)).1 = true ∧
    elapsedMillis 4000 sampleSelected._lastSameFolderOpenMillis < 5000 ∧
    sampleSelected.selectFolder "INBOX" true 4000 none = (true, sampleSelected) ∧
    (sampleSelected.selectFolder "INBOX" true 4000 none).2.sent
      = [IMAPFolderCommand.examine "INBOX"] ∧
    (sampleSelected.selectFolder "INBOX" true 4000 none).2._mbif = sampleSnapshot ∧
    (sampleSelected.selectFolder "INBOX" true 6000 (some sampleSnapshot)).2.sent
      = [IMAPFolderCommand.examine "INBOX", IMAPFolderCommand.examine "INBOX"] :=
  ⟨by decide, by decide,
    (C19_reselect_debounced {} "INBOX" true 1000 4000 (some sampleSnapshot) none
      (by decide) (by decide)).1,
    by decide, by decide, by decide⟩

/-! ## A message without a valid recipient -/

/-- C20: for a message none of whose recipient addresses is valid, also one
without recipients, `sendMail` returns false, the error of the session is
`SMTP_STATUS_NO_VALID_RECIPIENTS_EXISTED`, and no command is written: the
commands of the session are those from before the call, so no `MAIL FROM` and
no `RCPT TO` was sent. -/
theorem C20_no_valid_recipients (validEmail : String → Bool)
    (accept : SMTPEnvelopeCommand → Bool) (smtp : SMTPSession) (msg : SMTP_Message)
    (closeSession : Bool) (hnone : ∀ r ∈ msg._rcp, validEmail r.email = false) :
    (sendMail validEmail accept smtp msg closeSession).1 = false ∧
    (sendMail validEmail accept smtp msg closeSession).2._smtpStatus.statusCode
      = SMTP_STATUS_NO_VALID_RECIPIENTS_EXISTED ∧
    (sendMail validEmail accept smtp msg closeSession).2.sent = smtp.sent := by
  have hcheck : checkEmail validEmail msg = false := by
    simp only [checkEmail, List.any_eq_false]
    intro r hr
    simp [hnone r hr]
  simp [sendMail, hcheck, failSend]

/-- C20 at a message whose primary recipients are `ann.example.com` and the
empty text, with a valid carbon copy address, on a server that accepts
everything; the same call for a message with a valid recipient writes
`MAIL FROM`, one `RCPT TO` and `DATA`. -/
theorem C20_no_valid_recipients_witness :
    (∀ r ∈ sampleNoRecipient._rcp, hasAt r.email = false) ∧
    sampleNoRecipient._rcp.length = 2 ∧
    (sendMail hasAt (fun _ => true) {} sampleNoRecipient true).1 = false ∧
    (sendMail hasAt (fun _ => true) {} sampleNoRecipient true).2._smtpStatus.statusCode
      = -111 ∧
    (sendMail hasAt (fun _ => true) {} sampleNoRecipient true).2.sent = [] ∧
    (sendMail hasAt (fun _ => true) {} sampleOneRecipient true).2.sent
      = [SMTPEnvelopeCommand.mailFrom "dev@example.com",
         SMTPEnvelopeCommand.rcptTo "ann@example.com", SMTPEnvelopeCommand.data] :=
  ⟨by decide, by decide,
    (C20_no_valid_recipients hasAt (fun _ => true) {} sampleNoRecipient true (by decide)).1,
    (C20_no_valid_recipients hasAt (fun _ => true) {} sampleNoRecipient true (by decide)).2.1,
    (C20_no_valid_recipients hasAt (fun _ => true) {} sampleNoRecipient true (by decide)).2.2,
    by decide⟩

/-! ## The types of the entries of the attachment lists -/

/-- The loop with a type test only removes entries. -/
theorem mem_of_mem_eraseTypeLoop (t : esp_mail_attach_type) (k : Nat)
    (v : List SMTP_Attachment) (e : SMTP_Attachment) (he : e ∈ eraseTypeLoop t k v) :
    e ∈ v := by
  induction k generalizing v with
  | zero => simpa [eraseTypeLoop] using he
  | succ k ih =>
    rw [eraseTypeLoop] at he
    cases hget : v[k]? with
    | none =>
      simp only [hget] at he
      exact ih v he
    | some a =>
      simp only [hget] at he
      by_cases ht : a._int.att_type = t
      · simp only [ht, if_true] at he
        exact List.mem_of_mem_eraseIdx (ih _ he)
      · simp only [ht, if_false] at he
        exact ih v he

/-- The loop without a test only removes entries. -/
theorem mem_of_mem_eraseAllLoop {α : Type} (k : Nat) (v : List α) (e : α)
    (he : e ∈ eraseAllLoop k v) : e ∈ v := by
  rw [eraseAllLoop_eq] at he
  exact List.mem_of_mem_drop he

/-- A new message has well typed lists. -/
theorem listsWellTyped_new : listsWellTyped SMTP_Message.new := by
  simp [listsWellTyped, SMTP_Message.new]

/-- Every public operation keeps the lists well typed. -/
theorem listsWellTyped_apply (m : SMTP_Message) (op : MessageOp) (h : listsWellTyped m) :
    listsWellTyped (op.apply m) := by
  obtain ⟨hatt, hpar⟩ := h
  cases op with
  | resetAttachItem att => exact ⟨hatt, hpar⟩
  | clear => simp [MessageOp.apply, SMTP_Message.clear, listsWellTyped]
  | clearInlineimages =>
    refine ⟨fun e he => ?_, hpar⟩
    simp only [MessageOp.apply, SMTP_Message.clearInlineimages] at he
    exact hatt e (mem_of_mem_eraseTypeLoop _ _ _ e he)
  | clearAttachments =>
    refine ⟨fun e he => ?_, fun e he => ?_⟩
    · simp only [MessageOp.apply, SMTP_Message.clearAttachments] at he
      exact hatt e (mem_of_mem_eraseTypeLoop _ _ _ e he)
    · simp only [MessageOp.apply, SMTP_Message.clearAttachments] at he
      exact hpar e (mem_of_mem_eraseAllLoop _ _ e he)
  | clearRFC822Messages => exact ⟨hatt, hpar⟩
  | clearRecipients => exact ⟨hatt, hpar⟩
  | clearCc => exact ⟨hatt, hpar⟩
  | clearBcc => exact ⟨hatt, hpar⟩
  | clearHeader => exact ⟨hatt, hpar⟩
  | addAttachment att =>
    refine ⟨fun e he => ?_, hpar⟩
    simp only [MessageOp.apply, SMTP_Message.addAttachment, List.mem_append,
      List.mem_singleton] at he
    rcases he with he | rfl
    · exact hatt e he
    · simp
  | addParallelAttachment att =>
    refine ⟨hatt, fun e he => ?_⟩
    simp only [MessageOp.apply, SMTP_Message.addParallelAttachment, List.mem_append,
      List.mem_singleton] at he
    rcases he with he | rfl
    · exact hpar e he
    · simp
  | addInlineImage att rnd =>
    refine ⟨fun e he => ?_, hpar⟩
    simp only [MessageOp.apply, SMTP_Message.addInlineImage, List.mem_append,
      List.mem_singleton] at he
    rcases he with he | rfl
    · exact hatt e he
    · simp
  | addMessage msg => exact ⟨hatt, hpar⟩
  | addRecipient name email => exact ⟨hatt, hpar⟩
  | addCc email => exact ⟨hatt, hpar⟩
  | addBcc email => exact ⟨hatt, hpar⟩
  | addHeader hdr => exact ⟨hatt, hpar⟩

/-- A sequence of public operations keeps the lists well typed. -/
theorem listsWellTyped_runOps (ops : List MessageOp) (m : SMTP_Message)
    (h : listsWellTyped m) : listsWellTyped (runOps m ops) := by
  induction ops generalizing m with
  | nil => exact h
  | cons op ops ih => exact ih (op.apply m) (listsWellTyped_apply m op h)

/-- C21: in every message reached from a new message by a sequence of public
operations, every entry of `_att` has type attachment or inline and is not
flagged parallel, and every entry of `_parallel` has type attachment and is
flagged parallel. -/
theorem C21_lists_well_typed (ops : List MessageOp) :
    (∀ e ∈ (runOps SMTP_Message.new ops)._att,
      (e._int.att_type = esp_mail_attach_type.esp_mail_att_type_attachment ∨
        e._int.att_type = esp_mail_attach_type.esp_mail_att_type_inline) ∧
      e._int.parallel = false) ∧
    (∀ e ∈ (runOps SMTP_Message.new ops)._parallel,
      e._int.att_type = esp_mail_attach_type.esp_mail_att_type_attachment ∧
      e._int.parallel = true) :=
  listsWellTyped_runOps ops SMTP_Message.new listsWellTyped_new

/-! ## The two clearing operations together -/

/-- The message after `clearAttachments`, for lists of a size that the
conversion of the loop bound represents. -/
theorem clearAttachments_eq (m : SMTP_Message)
    (hatt : m._att.length < 2 ^ 31) (hpar : m._parallel.length < 2 ^ 31) :
    m.clearAttachments
      = { m with _att := m._att.filter (fun a => !isAttachment a), _parallel := [] } := by
  simp only [SMTP_Message.clearAttachments, castInt_toNat_of_lt _ hatt,
    castInt_toNat_of_lt _ hpar]
  rw [eraseTypeLoop_eq _ _ _ (le_refl _), eraseAllLoop_eq]
  simp [isAttachment]

/-- The message after `clearInlineimages`, for a list of a size that the
conversion of the loop bound represents. -/
theorem clearInlineimages_eq (m : SMTP_Message) (hatt : m._att.length < 2 ^ 31) :
    m.clearInlineimages = { m with _att := m._att.filter (fun a => !isInline a) } := by
  simp only [SMTP_Message.clearInlineimages, castInt_toNat_of_lt _ hatt]
  rw [eraseTypeLoop_eq _ _ _ (le_refl _)]
  simp [isInline]

/-- A filtered list is not longer than the list. -/
theorem length_filter_lt {α : Type} (p : α → Bool) (l : List α) (n : Nat)
    (h : l.length < n) : (l.filter p).length < n :=
  Nat.lt_of_le_of_lt (List.length_filter_le p l) h

/-- C22: on a message whose lists have a size that the conversion of the loop
bound represents, `clearAttachments` and `clearInlineimages` give the same
message in either order, each of them is idempotent, and when the message
was built by public operations from a new message, both lists are empty
after the two. -/
theorem C22_clear_commute_idempotent (m : SMTP_Message)
    (hatt : m._att.length < 2 ^ 31) (hpar : m._parallel.length < 2 ^ 31) :
    m.clearAttachments.clearInlineimages = m.clearInlineimages.clearAttachments ∧
    m.clearAttachments.clearInlineimages._att = m.clearInlineimages.clearAttachments._att ∧
    m.clearAttachments.clearInlineimages._parallel
      = m.clearInlineimages.clearAttachments._parallel ∧
    m.clearAttachments.clearAttachments = m.clearAttachments ∧
    m.clearInlineimages.clearInlineimages = m.clearInlineimages ∧
    (∀ ops : List MessageOp, runOps SMTP_Message.new ops = m →
      m.clearAttachments.clearInlineimages._att = [] ∧
      m.clearAttachments.clearInlineimages._parallel = [] ∧
      m.clearInlineimages.clearAttachments._att = [] ∧
      m.clearInlineimages.clearAttachments._parallel = []) := by
  have hA := clearAttachments_eq m hatt hpar
  have hI := clearInlineimages_eq m hatt
  obtain ⟨lAI, hlAI⟩ : ∃ l, l = (m._att.filter (fun a => !isAttachment a)).filter
      (fun a => !isInline a) := ⟨_, rfl⟩
  obtain ⟨lIA, hlIA⟩ : ∃ l, l = (m._att.filter (fun a => !isInline a)).filter
      (fun a => !isAttachment a) := ⟨_, rfl⟩
  have hAI : m.clearAttachments.clearInlineimages
      = { m with _att := lAI, _parallel := [] } := by
    have h2 := clearInlineimages_eq m.clearAttachments
      (by rw [hA]; exact length_filter_lt _ _ _ hatt)
    rw [h2, hA, hlAI]
  have hIA : m.clearInlineimages.clearAttachments
      = { m with _att := lIA, _parallel := [] } := by
    have h2 := clearAttachments_eq m.clearInlineimages
      (by rw [hI]; exact length_filter_lt _ _ _ hatt) (by rw [hI]; exact hpar)
    rw [h2, hI, hlIA]
  have hcomm : lAI = lIA := by
    rw [hlAI, hlIA, List.filter_filter, List.filter_filter]
    congr 1
    funext a
    exact Bool.and_comm _ _
  have heq : m.clearAttachments.clearInlineimages = m.clearInlineimages.clearAttachments := by
    rw [hAI, hIA, hcomm]
  refine ⟨heq, by rw [heq], by rw [heq], ?_, ?_, ?_⟩
  · have h2 := clearAttachments_eq m.clearAttachments
      (by rw [hA]; exact length_filter_lt _ _ _ hatt) (by rw [hA]; simp)
    rw [h2, hA]
    simp [List.filter_filter]
  · have h2 := clearInlineimages_eq m.clearInlineimages
      (by rw [hI]; exact length_filter_lt _ _ _ hatt)
    rw [h2, hI]
    simp [List.filter_filter]
  · intro ops hops
    have hwt : listsWellTyped m := by
      rw [← hops]
      exact listsWellTyped_runOps ops SMTP_Message.new listsWellTyped_new
    have hnil : lAI = [] := by
      rw [hlAI, List.filter_filter, List.filter_eq_nil_iff]
      intro e he
      rcases (hwt.1 e he).1 with h | h <;> simp [isAttachment, isInline, h]
    refine ⟨?_, ?_, ?_, ?_⟩
    · rw [hAI]; exact hnil
    · rw [hAI]
    · rw [← heq, hAI]; exact hnil
    · rw [← heq, hAI]

/-- C22 at the message built by the sample operations: five entries in the
lists before, none after the two clearing operations. -/
theorem C22_clear_commute_idempotent_witness :
    (runOps SMTP_Message.new sampleOps)._att.length = 4 ∧
    (runOps SMTP_Message.new sampleOps)._parallel.length = 1 ∧
    (runOps SMTP_Message.new sampleOps)._att.length < 2 ^ 31 ∧
    (runOps SMTP_Message.new sampleOps)._parallel.length < 2 ^ 31 ∧
    (runOps SMTP_Message.new sampleOps).clearAttachments.clearInlineimages._att = [] ∧
    (runOps SMTP_Message.new sampleOps).clearInlineimages.clearAttachments._parallel = [] ∧
    (runOps SMTP_Message.new sampleOps).clearInlineimages._att.length = 2 :=
  ⟨by decide, by decide, by decide, by decide,
    ((C22_clear_commute_idempotent (runOps SMTP_Message.new sampleOps)
      (by decide) (by decide)).2.2.2.2.2 sampleOps rfl).1,
    ((C22_clear_commute_idempotent (runOps SMTP_Message.new sampleOps)
      (by decide) (by decide)).2.2.2.2.2 sampleOps rfl).2.2.2,
    by decide⟩

/-! ## Clearing a message -/

/-- C23: after `clear()` the recipient, cc, bcc, header, attachment and
parallel attachment lists are empty; sender name and email, subject, reply-to
and the charset, content and content type of the text and html parts are
empty strings; both embed flags are false, notify is never and priority is
normal; a second `clear()` changes nothing. -/
theorem C23_clear (m : SMTP_Message) :
    (m.clear._rcp = [] ∧ m.clear._cc = [] ∧ m.clear._bcc = [] ∧ m.clear._hdr = [] ∧
      m.clear._att = [] ∧ m.clear._parallel = []) ∧
    (m.clear.sender.name = "" ∧ m.clear.sender.email = "" ∧ m.clear.subject = "" ∧
      m.clear.response.reply_to = "") ∧
    (m.clear.text.charSet = "" ∧ m.clear.text.content = "" ∧
      m.clear.text.content_type = "") ∧
    (m.clear.html.charSet = "" ∧ m.clear.html.content = "" ∧
      m.clear.html.content_type = "") ∧
    (m.clear.text.embed.enable = false ∧ m.clear.html.embed.enable = false) ∧
    m.clear.response.notify = esp_mail_smtp_notify.esp_mail_smtp_notify_never ∧
    m.clear.priority = esp_mail_smtp_priority.esp_mail_smtp_priority_normal ∧
    m.clear.clear = m.clear := by
  refine ⟨?_, ?_, ?_, ?_, ?_, ?_, ?_, ?_⟩ <;> simp [SMTP_Message.clear]

/-- C24: `clear()` leaves the nested message list and the members from,
messageID, keywords, comments, date, in_reply_to, references, type and enable
as they were; so a message with nested messages still has them, as the
sample with two nested messages shows. -/
theorem C24_clear_frame (m : SMTP_Message) :
    m.clear._rfc822 = m._rfc822 ∧
    m.clear.«from» = m.«from» ∧ m.clear.messageID = m.messageID ∧
    m.clear.keywords = m.keywords ∧ m.clear.comments = m.comments ∧
    m.clear.date = m.date ∧ m.clear.in_reply_to = m.in_reply_to ∧
    m.clear.references = m.references ∧ m.clear.type = m.type ∧
    m.clear.enable = m.enable ∧
    m.clear._rfc822.length = m._rfc822.length ∧
    (m._rfc822 ≠ [] → m.clear._rfc822 ≠ []) ∧
    sampleNested.clear._rfc822.length = 2 ∧ sampleNested.clear._rcp = [] := by
  refine ⟨?_, ?_, ?_, ?_, ?_, ?_, ?_, ?_, ?_, ?_, ?_, ?_, by decide, by decide⟩ <;>
    simp [SMTP_Message.clear]

end ESPMail
